import Mathlib

/-!
Verification development for the privacy-preserving UTXO ledger core: the
incremental fixed-height Merkle accumulator over Keccak-256, the BLAKE3
commitment/nullifier scheme, and the proving program's transaction checks.

Byte strings are modelled as lists of naturals (each entry a byte value);
machine integers are naturals with explicit reduction modulo powers of two.
-/

set_option maxRecDepth 40000

abbrev Bytes := List Nat

/-! ## Keccak-256 (the pair hash used for Merkle tree nodes) -/

/-- State of the Keccak-f[1600] permutation: 25 lanes of 64 bits. -/
structure KState where
  a0 : Nat
  a1 : Nat
  a2 : Nat
  a3 : Nat
  a4 : Nat
  a5 : Nat
  a6 : Nat
  a7 : Nat
  a8 : Nat
  a9 : Nat
  a10 : Nat
  a11 : Nat
  a12 : Nat
  a13 : Nat
  a14 : Nat
  a15 : Nat
  a16 : Nat
  a17 : Nat
  a18 : Nat
  a19 : Nat
  a20 : Nat
  a21 : Nat
  a22 : Nat
  a23 : Nat
  a24 : Nat

/-- One round of the Keccak-f[1600] permutation (state: 25 lanes of 64 bits,
lane (x, y) at position x + 5 * y), written with explicit per-lane formulas. -/
def keccakRound (rc : Nat) : KState → KState
  | ⟨a0, a1, a2, a3, a4, a5, a6, a7, a8, a9, a10, a11, a12, a13, a14, a15, a16, a17, a18, a19, a20, a21, a22, a23, a24⟩ =>
    let c0 := a0 ^^^ a5 ^^^ a10 ^^^ a15 ^^^ a20
    let c1 := a1 ^^^ a6 ^^^ a11 ^^^ a16 ^^^ a21
    let c2 := a2 ^^^ a7 ^^^ a12 ^^^ a17 ^^^ a22
    let c3 := a3 ^^^ a8 ^^^ a13 ^^^ a18 ^^^ a23
    let c4 := a4 ^^^ a9 ^^^ a14 ^^^ a19 ^^^ a24
    let d0 := c4 ^^^ (((c1 * 2) % 18446744073709551616 + c1 / 9223372036854775808))
    let d1 := c0 ^^^ (((c2 * 2) % 18446744073709551616 + c2 / 9223372036854775808))
    let d2 := c1 ^^^ (((c3 * 2) % 18446744073709551616 + c3 / 9223372036854775808))
    let d3 := c2 ^^^ (((c4 * 2) % 18446744073709551616 + c4 / 9223372036854775808))
    let d4 := c3 ^^^ (((c0 * 2) % 18446744073709551616 + c0 / 9223372036854775808))
    let t0 := a0 ^^^ d0
    let t1 := a1 ^^^ d1
    let t2 := a2 ^^^ d2
    let t3 := a3 ^^^ d3
    let t4 := a4 ^^^ d4
    let t5 := a5 ^^^ d0
    let t6 := a6 ^^^ d1
    let t7 := a7 ^^^ d2
    let t8 := a8 ^^^ d3
    let t9 := a9 ^^^ d4
    let t10 := a10 ^^^ d0
    let t11 := a11 ^^^ d1
    let t12 := a12 ^^^ d2
    let t13 := a13 ^^^ d3
    let t14 := a14 ^^^ d4
    let t15 := a15 ^^^ d0
    let t16 := a16 ^^^ d1
    let t17 := a17 ^^^ d2
    let t18 := a18 ^^^ d3
    let t19 := a19 ^^^ d4
    let t20 := a20 ^^^ d0
    let t21 := a21 ^^^ d1
    let t22 := a22 ^^^ d2
    let t23 := a23 ^^^ d3
    let t24 := a24 ^^^ d4
    let b0 := t0
    let b1 := ((t6 * 17592186044416) % 18446744073709551616 + t6 / 1048576)
    let b2 := ((t12 * 8796093022208) % 18446744073709551616 + t12 / 2097152)
    let b3 := ((t18 * 2097152) % 18446744073709551616 + t18 / 8796093022208)
    let b4 := ((t24 * 16384) % 18446744073709551616 + t24 / 1125899906842624)
    let b5 := ((t3 * 268435456) % 18446744073709551616 + t3 / 68719476736)
    let b6 := ((t9 * 1048576) % 18446744073709551616 + t9 / 17592186044416)
    let b7 := ((t10 * 8) % 18446744073709551616 + t10 / 2305843009213693952)
    let b8 := ((t16 * 35184372088832) % 18446744073709551616 + t16 / 524288)
    let b9 := ((t22 * 2305843009213693952) % 18446744073709551616 + t22 / 8)
    let b10 := ((t1 * 2) % 18446744073709551616 + t1 / 9223372036854775808)
    let b11 := ((t7 * 64) % 18446744073709551616 + t7 / 288230376151711744)
    let b12 := ((t13 * 33554432) % 18446744073709551616 + t13 / 549755813888)
    let b13 := ((t19 * 256) % 18446744073709551616 + t19 / 72057594037927936)
    let b14 := ((t20 * 262144) % 18446744073709551616 + t20 / 70368744177664)
    let b15 := ((t4 * 134217728) % 18446744073709551616 + t4 / 137438953472)
    let b16 := ((t5 * 68719476736) % 18446744073709551616 + t5 / 268435456)
    let b17 := ((t11 * 1024) % 18446744073709551616 + t11 / 18014398509481984)
    let b18 := ((t17 * 32768) % 18446744073709551616 + t17 / 562949953421312)
    let b19 := ((t23 * 72057594037927936) % 18446744073709551616 + t23 / 256)
    let b20 := ((t2 * 4611686018427387904) % 18446744073709551616 + t2 / 4)
    let b21 := ((t8 * 36028797018963968) % 18446744073709551616 + t8 / 512)
    let b22 := ((t14 * 549755813888) % 18446744073709551616 + t14 / 33554432)
    let b23 := ((t15 * 2199023255552) % 18446744073709551616 + t15 / 8388608)
    let b24 := ((t21 * 4) % 18446744073709551616 + t21 / 4611686018427387904)
    let e0 := b0 ^^^ ((18446744073709551615 ^^^ b1) &&& b2)
    let e1 := b1 ^^^ ((18446744073709551615 ^^^ b2) &&& b3)
    let e2 := b2 ^^^ ((18446744073709551615 ^^^ b3) &&& b4)
    let e3 := b3 ^^^ ((18446744073709551615 ^^^ b4) &&& b0)
    let e4 := b4 ^^^ ((18446744073709551615 ^^^ b0) &&& b1)
    let e5 := b5 ^^^ ((18446744073709551615 ^^^ b6) &&& b7)
    let e6 := b6 ^^^ ((18446744073709551615 ^^^ b7) &&& b8)
    let e7 := b7 ^^^ ((18446744073709551615 ^^^ b8) &&& b9)
    let e8 := b8 ^^^ ((18446744073709551615 ^^^ b9) &&& b5)
    let e9 := b9 ^^^ ((18446744073709551615 ^^^ b5) &&& b6)
    let e10 := b10 ^^^ ((18446744073709551615 ^^^ b11) &&& b12)
    let e11 := b11 ^^^ ((18446744073709551615 ^^^ b12) &&& b13)
    let e12 := b12 ^^^ ((18446744073709551615 ^^^ b13) &&& b14)
    let e13 := b13 ^^^ ((18446744073709551615 ^^^ b14) &&& b10)
    let e14 := b14 ^^^ ((18446744073709551615 ^^^ b10) &&& b11)
    let e15 := b15 ^^^ ((18446744073709551615 ^^^ b16) &&& b17)
    let e16 := b16 ^^^ ((18446744073709551615 ^^^ b17) &&& b18)
    let e17 := b17 ^^^ ((18446744073709551615 ^^^ b18) &&& b19)
    let e18 := b18 ^^^ ((18446744073709551615 ^^^ b19) &&& b15)
    let e19 := b19 ^^^ ((18446744073709551615 ^^^ b15) &&& b16)
    let e20 := b20 ^^^ ((18446744073709551615 ^^^ b21) &&& b22)
    let e21 := b21 ^^^ ((18446744073709551615 ^^^ b22) &&& b23)
    let e22 := b22 ^^^ ((18446744073709551615 ^^^ b23) &&& b24)
    let e23 := b23 ^^^ ((18446744073709551615 ^^^ b24) &&& b20)
    let e24 := b24 ^^^ ((18446744073709551615 ^^^ b20) &&& b21)
    ⟨e0 ^^^ rc, e1, e2, e3, e4, e5, e6, e7, e8, e9, e10, e11, e12, e13, e14, e15, e16, e17, e18, e19, e20, e21, e22, e23, e24⟩

/-- The 24 round constants of Keccak-f[1600]. -/
def keccakRC : List Nat :=
  [0x0000000000000001, 0x0000000000008082, 0x800000000000808a, 0x8000000080008000,
   0x000000000000808b, 0x0000000080000001, 0x8000000080008081, 0x8000000000008009,
   0x000000000000008a, 0x0000000000000088, 0x0000000080008009, 0x000000008000000a,
   0x000000008000808b, 0x800000000000008b, 0x8000000000008089, 0x8000000000008003,
   0x8000000000008002, 0x8000000000000080, 0x000000000000800a, 0x800000008000000a,
   0x8000000080008081, 0x8000000000008080, 0x0000000080000001, 0x8000000080008008]

/-- The full Keccak-f[1600] permutation: 24 rounds. -/
def keccakF (s : KState) : KState := keccakRC.foldl (fun st rc => keccakRound rc st) s

/-- Value of a little-endian byte string. -/
def leVal (bs : List Nat) : Nat := bs.foldr (fun b acc => b + 256 * acc) 0

/-- The eight little-endian bytes of a 64-bit word. -/
def le64bytes (x : Nat) : List Nat := (List.range 8).map fun k => x / 256 ^ k % 256

/-- Keccak-256 of a message shorter than the 136-byte rate: one padded block is
absorbed (multi-rate padding 0x01 .. 0x80) and the first 32 bytes of the state
are squeezed out. Every message hashed in this development is 64 bytes long
(two concatenated 32-byte nodes). -/
def keccak256 (msg : List Nat) : Bytes :=
  let p := msg ++ [0x01] ++ List.replicate (134 - msg.length) 0 ++ [0x80]
  let w := fun (i : Nat) => leVal ((p.drop (8 * i)).take 8)
  let s : KState :=
    ⟨w 0, w 1, w 2, w 3, w 4, w 5, w 6, w 7, w 8, w 9, w 10, w 11, w 12, w 13, w 14, w 15, w 16,
     0, 0, 0, 0, 0, 0, 0, 0⟩
  let f := keccakF s
  le64bytes f.a0 ++ le64bytes f.a1 ++ le64bytes f.a2 ++ le64bytes f.a3

/-- Hash two 32-byte values with Keccak-256 over their raw concatenation,
matching Solidity's keccak256(abi.encodePacked(left, right))
(source: core/src/merkle.rs, hash_pair). -/
def hash_pair (left right : Bytes) : Bytes := keccak256 (left ++ right)

/-! ## BLAKE3 (the commitment / nullifier hash) -/

/-- The BLAKE3 compression function, fully unrolled (7 rounds of 8 quarter-round
G applications on a 16-word state of 32-bit words, message schedule inlined).
Returns the 16 output words. -/
def blake3Compress (h0 h1 h2 h3 h4 h5 h6 h7 m0 m1 m2 m3 m4 m5 m6 m7 m8 m9 m10 m11 m12 m13 m14 m15 counter blockLen flags : Nat) : List Nat :=
  let s8 := 1779033703
  let s9 := 3144134277
  let s10 := 1013904242
  let s11 := 2773480762
  let s12 := counter % 4294967296
  let s13 := counter / 4294967296 % 4294967296
  let v0_1 := (h0 + h4 + m0) % 4294967296
  let v12_2 := ((s12 ^^^ v0_1) / 65536 + (s12 ^^^ v0_1) % 65536 * 65536)
  let v8_3 := (s8 + v12_2) % 4294967296
  let v4_4 := ((h4 ^^^ v8_3) / 4096 + (h4 ^^^ v8_3) % 4096 * 1048576)
  let v0_5 := (v0_1 + v4_4 + m1) % 4294967296
  let v12_6 := ((v12_2 ^^^ v0_5) / 256 + (v12_2 ^^^ v0_5) % 256 * 16777216)
  let v8_7 := (v8_3 + v12_6) % 4294967296
  let v4_8 := ((v4_4 ^^^ v8_7) / 128 + (v4_4 ^^^ v8_7) % 128 * 33554432)
  let v1_9 := (h1 + h5 + m2) % 4294967296
  let v13_10 := ((s13 ^^^ v1_9) / 65536 + (s13 ^^^ v1_9) % 65536 * 65536)
  let v9_11 := (s9 + v13_10) % 4294967296
  let v5_12 := ((h5 ^^^ v9_11) / 4096 + (h5 ^^^ v9_11) % 4096 * 1048576)
  let v1_13 := (v1_9 + v5_12 + m3) % 4294967296
  let v13_14 := ((v13_10 ^^^ v1_13) / 256 + (v13_10 ^^^ v1_13) % 256 * 16777216)
  let v9_15 := (v9_11 + v13_14) % 4294967296
  let v5_16 := ((v5_12 ^^^ v9_15) / 128 + (v5_12 ^^^ v9_15) % 128 * 33554432)
  let v2_17 := (h2 + h6 + m4) % 4294967296
  let v14_18 := ((blockLen ^^^ v2_17) / 65536 + (blockLen ^^^ v2_17) % 65536 * 65536)
  let v10_19 := (s10 + v14_18) % 4294967296
  let v6_20 := ((h6 ^^^ v10_19) / 4096 + (h6 ^^^ v10_19) % 4096 * 1048576)
  let v2_21 := (v2_17 + v6_20 + m5) % 4294967296
  let v14_22 := ((v14_18 ^^^ v2_21) / 256 + (v14_18 ^^^ v2_21) % 256 * 16777216)
  let v10_23 := (v10_19 + v14_22) % 4294967296
  let v6_24 := ((v6_20 ^^^ v10_23) / 128 + (v6_20 ^^^ v10_23) % 128 * 33554432)
  let v3_25 := (h3 + h7 + m6) % 4294967296
  let v15_26 := ((flags ^^^ v3_25) / 65536 + (flags ^^^ v3_25) % 65536 * 65536)
  let v11_27 := (s11 + v15_26) % 4294967296
  let v7_28 := ((h7 ^^^ v11_27) / 4096 + (h7 ^^^ v11_27) % 4096 * 1048576)
  let v3_29 := (v3_25 + v7_28 + m7) % 4294967296
  let v15_30 := ((v15_26 ^^^ v3_29) / 256 + (v15_26 ^^^ v3_29) % 256 * 16777216)
  let v11_31 := (v11_27 + v15_30) % 4294967296
  let v7_32 := ((v7_28 ^^^ v11_31) / 128 + (v7_28 ^^^ v11_31) % 128 * 33554432)
  let v0_33 := (v0_5 + v5_16 + m8) % 4294967296
  let v15_34 := ((v15_30 ^^^ v0_33) / 65536 + (v15_30 ^^^ v0_33) % 65536 * 65536)
  let v10_35 := (v10_23 + v15_34) % 4294967296
  let v5_36 := ((v5_16 ^^^ v10_35) / 4096 + (v5_16 ^^^ v10_35) % 4096 * 1048576)
  let v0_37 := (v0_33 + v5_36 + m9) % 4294967296
  let v15_38 := ((v15_34 ^^^ v0_37) / 256 + (v15_34 ^^^ v0_37) % 256 * 16777216)
  let v10_39 := (v10_35 + v15_38) % 4294967296
  let v5_40 := ((v5_36 ^^^ v10_39) / 128 + (v5_36 ^^^ v10_39) % 128 * 33554432)
  let v1_41 := (v1_13 + v6_24 + m10) % 4294967296
  let v12_42 := ((v12_6 ^^^ v1_41) / 65536 + (v12_6 ^^^ v1_41) % 65536 * 65536)
  let v11_43 := (v11_31 + v12_42) % 4294967296
  let v6_44 := ((v6_24 ^^^ v11_43) / 4096 + (v6_24 ^^^ v11_43) % 4096 * 1048576)
  let v1_45 := (v1_41 + v6_44 + m11) % 4294967296
  let v12_46 := ((v12_42 ^^^ v1_45) / 256 + (v12_42 ^^^ v1_45) % 256 * 16777216)
  let v11_47 := (v11_43 + v12_46) % 4294967296
  let v6_48 := ((v6_44 ^^^ v11_47) / 128 + (v6_44 ^^^ v11_47) % 128 * 33554432)
  let v2_49 := (v2_21 + v7_32 + m12) % 4294967296
  let v13_50 := ((v13_14 ^^^ v2_49) / 65536 + (v13_14 ^^^ v2_49) % 65536 * 65536)
  let v8_51 := (v8_7 + v13_50) % 4294967296
  let v7_52 := ((v7_32 ^^^ v8_51) / 4096 + (v7_32 ^^^ v8_51) % 4096 * 1048576)
  let v2_53 := (v2_49 + v7_52 + m13) % 4294967296
  let v13_54 := ((v13_50 ^^^ v2_53) / 256 + (v13_50 ^^^ v2_53) % 256 * 16777216)
  let v8_55 := (v8_51 + v13_54) % 4294967296
  let v7_56 := ((v7_52 ^^^ v8_55) / 128 + (v7_52 ^^^ v8_55) % 128 * 33554432)
  let v3_57 := (v3_29 + v4_8 + m14) % 4294967296
  let v14_58 := ((v14_22 ^^^ v3_57) / 65536 + (v14_22 ^^^ v3_57) % 65536 * 65536)
  let v9_59 := (v9_15 + v14_58) % 4294967296
  let v4_60 := ((v4_8 ^^^ v9_59) / 4096 + (v4_8 ^^^ v9_59) % 4096 * 1048576)
  let v3_61 := (v3_57 + v4_60 + m15) % 4294967296
  let v14_62 := ((v14_58 ^^^ v3_61) / 256 + (v14_58 ^^^ v3_61) % 256 * 16777216)
  let v9_63 := (v9_59 + v14_62) % 4294967296
  let v4_64 := ((v4_60 ^^^ v9_63) / 128 + (v4_60 ^^^ v9_63) % 128 * 33554432)
  let v0_65 := (v0_37 + v4_64 + m2) % 4294967296
  let v12_66 := ((v12_46 ^^^ v0_65) / 65536 + (v12_46 ^^^ v0_65) % 65536 * 65536)
  let v8_67 := (v8_55 + v12_66) % 4294967296
  let v4_68 := ((v4_64 ^^^ v8_67) / 4096 + (v4_64 ^^^ v8_67) % 4096 * 1048576)
  let v0_69 := (v0_65 + v4_68 + m6) % 4294967296
  let v12_70 := ((v12_66 ^^^ v0_69) / 256 + (v12_66 ^^^ v0_69) % 256 * 16777216)
  let v8_71 := (v8_67 + v12_70) % 4294967296
  let v4_72 := ((v4_68 ^^^ v8_71) / 128 + (v4_68 ^^^ v8_71) % 128 * 33554432)
  let v1_73 := (v1_45 + v5_40 + m3) % 4294967296
  let v13_74 := ((v13_54 ^^^ v1_73) / 65536 + (v13_54 ^^^ v1_73) % 65536 * 65536)
  let v9_75 := (v9_63 + v13_74) % 4294967296
  let v5_76 := ((v5_40 ^^^ v9_75) / 4096 + (v5_40 ^^^ v9_75) % 4096 * 1048576)
  let v1_77 := (v1_73 + v5_76 + m10) % 4294967296
  let v13_78 := ((v13_74 ^^^ v1_77) / 256 + (v13_74 ^^^ v1_77) % 256 * 16777216)
  let v9_79 := (v9_75 + v13_78) % 4294967296
  let v5_80 := ((v5_76 ^^^ v9_79) / 128 + (v5_76 ^^^ v9_79) % 128 * 33554432)
  let v2_81 := (v2_53 + v6_48 + m7) % 4294967296
  let v14_82 := ((v14_62 ^^^ v2_81) / 65536 + (v14_62 ^^^ v2_81) % 65536 * 65536)
  let v10_83 := (v10_39 + v14_82) % 4294967296
  let v6_84 := ((v6_48 ^^^ v10_83) / 4096 + (v6_48 ^^^ v10_83) % 4096 * 1048576)
  let v2_85 := (v2_81 + v6_84 + m0) % 4294967296
  let v14_86 := ((v14_82 ^^^ v2_85) / 256 + (v14_82 ^^^ v2_85) % 256 * 16777216)
  let v10_87 := (v10_83 + v14_86) % 4294967296
  let v6_88 := ((v6_84 ^^^ v10_87) / 128 + (v6_84 ^^^ v10_87) % 128 * 33554432)
  let v3_89 := (v3_61 + v7_56 + m4) % 4294967296
  let v15_90 := ((v15_38 ^^^ v3_89) / 65536 + (v15_38 ^^^ v3_89) % 65536 * 65536)
  let v11_91 := (v11_47 + v15_90) % 4294967296
  let v7_92 := ((v7_56 ^^^ v11_91) / 4096 + (v7_56 ^^^ v11_91) % 4096 * 1048576)
  let v3_93 := (v3_89 + v7_92 + m13) % 4294967296
  let v15_94 := ((v15_90 ^^^ v3_93) / 256 + (v15_90 ^^^ v3_93) % 256 * 16777216)
  let v11_95 := (v11_91 + v15_94) % 4294967296
  let v7_96 := ((v7_92 ^^^ v11_95) / 128 + (v7_92 ^^^ v11_95) % 128 * 33554432)
  let v0_97 := (v0_69 + v5_80 + m1) % 4294967296
  let v15_98 := ((v15_94 ^^^ v0_97) / 65536 + (v15_94 ^^^ v0_97) % 65536 * 65536)
  let v10_99 := (v10_87 + v15_98) % 4294967296
  let v5_100 := ((v5_80 ^^^ v10_99) / 4096 + (v5_80 ^^^ v10_99) % 4096 * 1048576)
  let v0_101 := (v0_97 + v5_100 + m11) % 4294967296
  let v15_102 := ((v15_98 ^^^ v0_101) / 256 + (v15_98 ^^^ v0_101) % 256 * 16777216)
  let v10_103 := (v10_99 + v15_102) % 4294967296
  let v5_104 := ((v5_100 ^^^ v10_103) / 128 + (v5_100 ^^^ v10_103) % 128 * 33554432)
  let v1_105 := (v1_77 + v6_88 + m12) % 4294967296
  let v12_106 := ((v12_70 ^^^ v1_105) / 65536 + (v12_70 ^^^ v1_105) % 65536 * 65536)
  let v11_107 := (v11_95 + v12_106) % 4294967296
  let v6_108 := ((v6_88 ^^^ v11_107) / 4096 + (v6_88 ^^^ v11_107) % 4096 * 1048576)
  let v1_109 := (v1_105 + v6_108 + m5) % 4294967296
  let v12_110 := ((v12_106 ^^^ v1_109) / 256 + (v12_106 ^^^ v1_109) % 256 * 16777216)
  let v11_111 := (v11_107 + v12_110) % 4294967296
  let v6_112 := ((v6_108 ^^^ v11_111) / 128 + (v6_108 ^^^ v11_111) % 128 * 33554432)
  let v2_113 := (v2_85 + v7_96 + m9) % 4294967296
  let v13_114 := ((v13_78 ^^^ v2_113) / 65536 + (v13_78 ^^^ v2_113) % 65536 * 65536)
  let v8_115 := (v8_71 + v13_114) % 4294967296
  let v7_116 := ((v7_96 ^^^ v8_115) / 4096 + (v7_96 ^^^ v8_115) % 4096 * 1048576)
  let v2_117 := (v2_113 + v7_116 + m14) % 4294967296
  let v13_118 := ((v13_114 ^^^ v2_117) / 256 + (v13_114 ^^^ v2_117) % 256 * 16777216)
  let v8_119 := (v8_115 + v13_118) % 4294967296
  let v7_120 := ((v7_116 ^^^ v8_119) / 128 + (v7_116 ^^^ v8_119) % 128 * 33554432)
  let v3_121 := (v3_93 + v4_72 + m15) % 4294967296
  let v14_122 := ((v14_86 ^^^ v3_121) / 65536 + (v14_86 ^^^ v3_121) % 65536 * 65536)
  let v9_123 := (v9_79 + v14_122) % 4294967296
  let v4_124 := ((v4_72 ^^^ v9_123) / 4096 + (v4_72 ^^^ v9_123) % 4096 * 1048576)
  let v3_125 := (v3_121 + v4_124 + m8) % 4294967296
  let v14_126 := ((v14_122 ^^^ v3_125) / 256 + (v14_122 ^^^ v3_125) % 256 * 16777216)
  let v9_127 := (v9_123 + v14_126) % 4294967296
  let v4_128 := ((v4_124 ^^^ v9_127) / 128 + (v4_124 ^^^ v9_127) % 128 * 33554432)
  let v0_129 := (v0_101 + v4_128 + m3) % 4294967296
  let v12_130 := ((v12_110 ^^^ v0_129) / 65536 + (v12_110 ^^^ v0_129) % 65536 * 65536)
  let v8_131 := (v8_119 + v12_130) % 4294967296
  let v4_132 := ((v4_128 ^^^ v8_131) / 4096 + (v4_128 ^^^ v8_131) % 4096 * 1048576)
  let v0_133 := (v0_129 + v4_132 + m4) % 4294967296
  let v12_134 := ((v12_130 ^^^ v0_133) / 256 + (v12_130 ^^^ v0_133) % 256 * 16777216)
  let v8_135 := (v8_131 + v12_134) % 4294967296
  let v4_136 := ((v4_132 ^^^ v8_135) / 128 + (v4_132 ^^^ v8_135) % 128 * 33554432)
  let v1_137 := (v1_109 + v5_104 + m10) % 4294967296
  let v13_138 := ((v13_118 ^^^ v1_137) / 65536 + (v13_118 ^^^ v1_137) % 65536 * 65536)
  let v9_139 := (v9_127 + v13_138) % 4294967296
  let v5_140 := ((v5_104 ^^^ v9_139) / 4096 + (v5_104 ^^^ v9_139) % 4096 * 1048576)
  let v1_141 := (v1_137 + v5_140 + m12) % 4294967296
  let v13_142 := ((v13_138 ^^^ v1_141) / 256 + (v13_138 ^^^ v1_141) % 256 * 16777216)
  let v9_143 := (v9_139 + v13_142) % 4294967296
  let v5_144 := ((v5_140 ^^^ v9_143) / 128 + (v5_140 ^^^ v9_143) % 128 * 33554432)
  let v2_145 := (v2_117 + v6_112 + m13) % 4294967296
  let v14_146 := ((v14_126 ^^^ v2_145) / 65536 + (v14_126 ^^^ v2_145) % 65536 * 65536)
  let v10_147 := (v10_103 + v14_146) % 4294967296
  let v6_148 := ((v6_112 ^^^ v10_147) / 4096 + (v6_112 ^^^ v10_147) % 4096 * 1048576)
  let v2_149 := (v2_145 + v6_148 + m2) % 4294967296
  let v14_150 := ((v14_146 ^^^ v2_149) / 256 + (v14_146 ^^^ v2_149) % 256 * 16777216)
  let v10_151 := (v10_147 + v14_150) % 4294967296
  let v6_152 := ((v6_148 ^^^ v10_151) / 128 + (v6_148 ^^^ v10_151) % 128 * 33554432)
  let v3_153 := (v3_125 + v7_120 + m7) % 4294967296
  let v15_154 := ((v15_102 ^^^ v3_153) / 65536 + (v15_102 ^^^ v3_153) % 65536 * 65536)
  let v11_155 := (v11_111 + v15_154) % 4294967296
  let v7_156 := ((v7_120 ^^^ v11_155) / 4096 + (v7_120 ^^^ v11_155) % 4096 * 1048576)
  let v3_157 := (v3_153 + v7_156 + m14) % 4294967296
  let v15_158 := ((v15_154 ^^^ v3_157) / 256 + (v15_154 ^^^ v3_157) % 256 * 16777216)
  let v11_159 := (v11_155 + v15_158) % 4294967296
  let v7_160 := ((v7_156 ^^^ v11_159) / 128 + (v7_156 ^^^ v11_159) % 128 * 33554432)
  let v0_161 := (v0_133 + v5_144 + m6) % 4294967296
  let v15_162 := ((v15_158 ^^^ v0_161) / 65536 + (v15_158 ^^^ v0_161) % 65536 * 65536)
  let v10_163 := (v10_151 + v15_162) % 4294967296
  let v5_164 := ((v5_144 ^^^ v10_163) / 4096 + (v5_144 ^^^ v10_163) % 4096 * 1048576)
  let v0_165 := (v0_161 + v5_164 + m5) % 4294967296
  let v15_166 := ((v15_162 ^^^ v0_165) / 256 + (v15_162 ^^^ v0_165) % 256 * 16777216)
  let v10_167 := (v10_163 + v15_166) % 4294967296
  let v5_168 := ((v5_164 ^^^ v10_167) / 128 + (v5_164 ^^^ v10_167) % 128 * 33554432)
  let v1_169 := (v1_141 + v6_152 + m9) % 4294967296
  let v12_170 := ((v12_134 ^^^ v1_169) / 65536 + (v12_134 ^^^ v1_169) % 65536 * 65536)
  let v11_171 := (v11_159 + v12_170) % 4294967296
  let v6_172 := ((v6_152 ^^^ v11_171) / 4096 + (v6_152 ^^^ v11_171) % 4096 * 1048576)
  let v1_173 := (v1_169 + v6_172 + m0) % 4294967296
  let v12_174 := ((v12_170 ^^^ v1_173) / 256 + (v12_170 ^^^ v1_173) % 256 * 16777216)
  let v11_175 := (v11_171 + v12_174) % 4294967296
  let v6_176 := ((v6_172 ^^^ v11_175) / 128 + (v6_172 ^^^ v11_175) % 128 * 33554432)
  let v2_177 := (v2_149 + v7_160 + m11) % 4294967296
  let v13_178 := ((v13_142 ^^^ v2_177) / 65536 + (v13_142 ^^^ v2_177) % 65536 * 65536)
  let v8_179 := (v8_135 + v13_178) % 4294967296
  let v7_180 := ((v7_160 ^^^ v8_179) / 4096 + (v7_160 ^^^ v8_179) % 4096 * 1048576)
  let v2_181 := (v2_177 + v7_180 + m15) % 4294967296
  let v13_182 := ((v13_178 ^^^ v2_181) / 256 + (v13_178 ^^^ v2_181) % 256 * 16777216)
  let v8_183 := (v8_179 + v13_182) % 4294967296
  let v7_184 := ((v7_180 ^^^ v8_183) / 128 + (v7_180 ^^^ v8_183) % 128 * 33554432)
  let v3_185 := (v3_157 + v4_136 + m8) % 4294967296
  let v14_186 := ((v14_150 ^^^ v3_185) / 65536 + (v14_150 ^^^ v3_185) % 65536 * 65536)
  let v9_187 := (v9_143 + v14_186) % 4294967296
  let v4_188 := ((v4_136 ^^^ v9_187) / 4096 + (v4_136 ^^^ v9_187) % 4096 * 1048576)
  let v3_189 := (v3_185 + v4_188 + m1) % 4294967296
  let v14_190 := ((v14_186 ^^^ v3_189) / 256 + (v14_186 ^^^ v3_189) % 256 * 16777216)
  let v9_191 := (v9_187 + v14_190) % 4294967296
  let v4_192 := ((v4_188 ^^^ v9_191) / 128 + (v4_188 ^^^ v9_191) % 128 * 33554432)
  let v0_193 := (v0_165 + v4_192 + m10) % 4294967296
  let v12_194 := ((v12_174 ^^^ v0_193) / 65536 + (v12_174 ^^^ v0_193) % 65536 * 65536)
  let v8_195 := (v8_183 + v12_194) % 4294967296
  let v4_196 := ((v4_192 ^^^ v8_195) / 4096 + (v4_192 ^^^ v8_195) % 4096 * 1048576)
  let v0_197 := (v0_193 + v4_196 + m7) % 4294967296
  let v12_198 := ((v12_194 ^^^ v0_197) / 256 + (v12_194 ^^^ v0_197) % 256 * 16777216)
  let v8_199 := (v8_195 + v12_198) % 4294967296
  let v4_200 := ((v4_196 ^^^ v8_199) / 128 + (v4_196 ^^^ v8_199) % 128 * 33554432)
  let v1_201 := (v1_173 + v5_168 + m12) % 4294967296
  let v13_202 := ((v13_182 ^^^ v1_201) / 65536 + (v13_182 ^^^ v1_201) % 65536 * 65536)
  let v9_203 := (v9_191 + v13_202) % 4294967296
  let v5_204 := ((v5_168 ^^^ v9_203) / 4096 + (v5_168 ^^^ v9_203) % 4096 * 1048576)
  let v1_205 := (v1_201 + v5_204 + m9) % 4294967296
  let v13_206 := ((v13_202 ^^^ v1_205) / 256 + (v13_202 ^^^ v1_205) % 256 * 16777216)
  let v9_207 := (v9_203 + v13_206) % 4294967296
  let v5_208 := ((v5_204 ^^^ v9_207) / 128 + (v5_204 ^^^ v9_207) % 128 * 33554432)
  let v2_209 := (v2_181 + v6_176 + m14) % 4294967296
  let v14_210 := ((v14_190 ^^^ v2_209) / 65536 + (v14_190 ^^^ v2_209) % 65536 * 65536)
  let v10_211 := (v10_167 + v14_210) % 4294967296
  let v6_212 := ((v6_176 ^^^ v10_211) / 4096 + (v6_176 ^^^ v10_211) % 4096 * 1048576)
  let v2_213 := (v2_209 + v6_212 + m3) % 4294967296
  let v14_214 := ((v14_210 ^^^ v2_213) / 256 + (v14_210 ^^^ v2_213) % 256 * 16777216)
  let v10_215 := (v10_211 + v14_214) % 4294967296
  let v6_216 := ((v6_212 ^^^ v10_215) / 128 + (v6_212 ^^^ v10_215) % 128 * 33554432)
  let v3_217 := (v3_189 + v7_184 + m13) % 4294967296
  let v15_218 := ((v15_166 ^^^ v3_217) / 65536 + (v15_166 ^^^ v3_217) % 65536 * 65536)
  let v11_219 := (v11_175 + v15_218) % 4294967296
  let v7_220 := ((v7_184 ^^^ v11_219) / 4096 + (v7_184 ^^^ v11_219) % 4096 * 1048576)
  let v3_221 := (v3_217 + v7_220 + m15) % 4294967296
  let v15_222 := ((v15_218 ^^^ v3_221) / 256 + (v15_218 ^^^ v3_221) % 256 * 16777216)
  let v11_223 := (v11_219 + v15_222) % 4294967296
  let v7_224 := ((v7_220 ^^^ v11_223) / 128 + (v7_220 ^^^ v11_223) % 128 * 33554432)
  let v0_225 := (v0_197 + v5_208 + m4) % 4294967296
  let v15_226 := ((v15_222 ^^^ v0_225) / 65536 + (v15_222 ^^^ v0_225) % 65536 * 65536)
  let v10_227 := (v10_215 + v15_226) % 4294967296
  let v5_228 := ((v5_208 ^^^ v10_227) / 4096 + (v5_208 ^^^ v10_227) % 4096 * 1048576)
  let v0_229 := (v0_225 + v5_228 + m0) % 4294967296
  let v15_230 := ((v15_226 ^^^ v0_229) / 256 + (v15_226 ^^^ v0_229) % 256 * 16777216)
  let v10_231 := (v10_227 + v15_230) % 4294967296
  let v5_232 := ((v5_228 ^^^ v10_231) / 128 + (v5_228 ^^^ v10_231) % 128 * 33554432)
  let v1_233 := (v1_205 + v6_216 + m11) % 4294967296
  let v12_234 := ((v12_198 ^^^ v1_233) / 65536 + (v12_198 ^^^ v1_233) % 65536 * 65536)
  let v11_235 := (v11_223 + v12_234) % 4294967296
  let v6_236 := ((v6_216 ^^^ v11_235) / 4096 + (v6_216 ^^^ v11_235) % 4096 * 1048576)
  let v1_237 := (v1_233 + v6_236 + m2) % 4294967296
  let v12_238 := ((v12_234 ^^^ v1_237) / 256 + (v12_234 ^^^ v1_237) % 256 * 16777216)
  let v11_239 := (v11_235 + v12_238) % 4294967296
  let v6_240 := ((v6_236 ^^^ v11_239) / 128 + (v6_236 ^^^ v11_239) % 128 * 33554432)
  let v2_241 := (v2_213 + v7_224 + m5) % 4294967296
  let v13_242 := ((v13_206 ^^^ v2_241) / 65536 + (v13_206 ^^^ v2_241) % 65536 * 65536)
  let v8_243 := (v8_199 + v13_242) % 4294967296
  let v7_244 := ((v7_224 ^^^ v8_243) / 4096 + (v7_224 ^^^ v8_243) % 4096 * 1048576)
  let v2_245 := (v2_241 + v7_244 + m8) % 4294967296
  let v13_246 := ((v13_242 ^^^ v2_245) / 256 + (v13_242 ^^^ v2_245) % 256 * 16777216)
  let v8_247 := (v8_243 + v13_246) % 4294967296
  let v7_248 := ((v7_244 ^^^ v8_247) / 128 + (v7_244 ^^^ v8_247) % 128 * 33554432)
  let v3_249 := (v3_221 + v4_200 + m1) % 4294967296
  let v14_250 := ((v14_214 ^^^ v3_249) / 65536 + (v14_214 ^^^ v3_249) % 65536 * 65536)
  let v9_251 := (v9_207 + v14_250) % 4294967296
  let v4_252 := ((v4_200 ^^^ v9_251) / 4096 + (v4_200 ^^^ v9_251) % 4096 * 1048576)
  let v3_253 := (v3_249 + v4_252 + m6) % 4294967296
  let v14_254 := ((v14_250 ^^^ v3_253) / 256 + (v14_250 ^^^ v3_253) % 256 * 16777216)
  let v9_255 := (v9_251 + v14_254) % 4294967296
  let v4_256 := ((v4_252 ^^^ v9_255) / 128 + (v4_252 ^^^ v9_255) % 128 * 33554432)
  let v0_257 := (v0_229 + v4_256 + m12) % 4294967296
  let v12_258 := ((v12_238 ^^^ v0_257) / 65536 + (v12_238 ^^^ v0_257) % 65536 * 65536)
  let v8_259 := (v8_247 + v12_258) % 4294967296
  let v4_260 := ((v4_256 ^^^ v8_259) / 4096 + (v4_256 ^^^ v8_259) % 4096 * 1048576)
  let v0_261 := (v0_257 + v4_260 + m13) % 4294967296
  let v12_262 := ((v12_258 ^^^ v0_261) / 256 + (v12_258 ^^^ v0_261) % 256 * 16777216)
  let v8_263 := (v8_259 + v12_262) % 4294967296
  let v4_264 := ((v4_260 ^^^ v8_263) / 128 + (v4_260 ^^^ v8_263) % 128 * 33554432)
  let v1_265 := (v1_237 + v5_232 + m9) % 4294967296
  let v13_266 := ((v13_246 ^^^ v1_265) / 65536 + (v13_246 ^^^ v1_265) % 65536 * 65536)
  let v9_267 := (v9_255 + v13_266) % 4294967296
  let v5_268 := ((v5_232 ^^^ v9_267) / 4096 + (v5_232 ^^^ v9_267) % 4096 * 1048576)
  let v1_269 := (v1_265 + v5_268 + m11) % 4294967296
  let v13_270 := ((v13_266 ^^^ v1_269) / 256 + (v13_266 ^^^ v1_269) % 256 * 16777216)
  let v9_271 := (v9_267 + v13_270) % 4294967296
  let v5_272 := ((v5_268 ^^^ v9_271) / 128 + (v5_268 ^^^ v9_271) % 128 * 33554432)
  let v2_273 := (v2_245 + v6_240 + m15) % 4294967296
  let v14_274 := ((v14_254 ^^^ v2_273) / 65536 + (v14_254 ^^^ v2_273) % 65536 * 65536)
  let v10_275 := (v10_231 + v14_274) % 4294967296
  let v6_276 := ((v6_240 ^^^ v10_275) / 4096 + (v6_240 ^^^ v10_275) % 4096 * 1048576)
  let v2_277 := (v2_273 + v6_276 + m10) % 4294967296
  let v14_278 := ((v14_274 ^^^ v2_277) / 256 + (v14_274 ^^^ v2_277) % 256 * 16777216)
  let v10_279 := (v10_275 + v14_278) % 4294967296
  let v6_280 := ((v6_276 ^^^ v10_279) / 128 + (v6_276 ^^^ v10_279) % 128 * 33554432)
  let v3_281 := (v3_253 + v7_248 + m14) % 4294967296
  let v15_282 := ((v15_230 ^^^ v3_281) / 65536 + (v15_230 ^^^ v3_281) % 65536 * 65536)
  let v11_283 := (v11_239 + v15_282) % 4294967296
  let v7_284 := ((v7_248 ^^^ v11_283) / 4096 + (v7_248 ^^^ v11_283) % 4096 * 1048576)
  let v3_285 := (v3_281 + v7_284 + m8) % 4294967296
  let v15_286 := ((v15_282 ^^^ v3_285) / 256 + (v15_282 ^^^ v3_285) % 256 * 16777216)
  let v11_287 := (v11_283 + v15_286) % 4294967296
  let v7_288 := ((v7_284 ^^^ v11_287) / 128 + (v7_284 ^^^ v11_287) % 128 * 33554432)
  let v0_289 := (v0_261 + v5_272 + m7) % 4294967296
  let v15_290 := ((v15_286 ^^^ v0_289) / 65536 + (v15_286 ^^^ v0_289) % 65536 * 65536)
  let v10_291 := (v10_279 + v15_290) % 4294967296
  let v5_292 := ((v5_272 ^^^ v10_291) / 4096 + (v5_272 ^^^ v10_291) % 4096 * 1048576)
  let v0_293 := (v0_289 + v5_292 + m2) % 4294967296
  let v15_294 := ((v15_290 ^^^ v0_293) / 256 + (v15_290 ^^^ v0_293) % 256 * 16777216)
  let v10_295 := (v10_291 + v15_294) % 4294967296
  let v5_296 := ((v5_292 ^^^ v10_295) / 128 + (v5_292 ^^^ v10_295) % 128 * 33554432)
  let v1_297 := (v1_269 + v6_280 + m5) % 4294967296
  let v12_298 := ((v12_262 ^^^ v1_297) / 65536 + (v12_262 ^^^ v1_297) % 65536 * 65536)
  let v11_299 := (v11_287 + v12_298) % 4294967296
  let v6_300 := ((v6_280 ^^^ v11_299) / 4096 + (v6_280 ^^^ v11_299) % 4096 * 1048576)
  let v1_301 := (v1_297 + v6_300 + m3) % 4294967296
  let v12_302 := ((v12_298 ^^^ v1_301) / 256 + (v12_298 ^^^ v1_301) % 256 * 16777216)
  let v11_303 := (v11_299 + v12_302) % 4294967296
  let v6_304 := ((v6_300 ^^^ v11_303) / 128 + (v6_300 ^^^ v11_303) % 128 * 33554432)
  let v2_305 := (v2_277 + v7_288 + m0) % 4294967296
  let v13_306 := ((v13_270 ^^^ v2_305) / 65536 + (v13_270 ^^^ v2_305) % 65536 * 65536)
  let v8_307 := (v8_263 + v13_306) % 4294967296
  let v7_308 := ((v7_288 ^^^ v8_307) / 4096 + (v7_288 ^^^ v8_307) % 4096 * 1048576)
  let v2_309 := (v2_305 + v7_308 + m1) % 4294967296
  let v13_310 := ((v13_306 ^^^ v2_309) / 256 + (v13_306 ^^^ v2_309) % 256 * 16777216)
  let v8_311 := (v8_307 + v13_310) % 4294967296
  let v7_312 := ((v7_308 ^^^ v8_311) / 128 + (v7_308 ^^^ v8_311) % 128 * 33554432)
  let v3_313 := (v3_285 + v4_264 + m6) % 4294967296
  let v14_314 := ((v14_278 ^^^ v3_313) / 65536 + (v14_278 ^^^ v3_313) % 65536 * 65536)
  let v9_315 := (v9_271 + v14_314) % 4294967296
  let v4_316 := ((v4_264 ^^^ v9_315) / 4096 + (v4_264 ^^^ v9_315) % 4096 * 1048576)
  let v3_317 := (v3_313 + v4_316 + m4) % 4294967296
  let v14_318 := ((v14_314 ^^^ v3_317) / 256 + (v14_314 ^^^ v3_317) % 256 * 16777216)
  let v9_319 := (v9_315 + v14_318) % 4294967296
  let v4_320 := ((v4_316 ^^^ v9_319) / 128 + (v4_316 ^^^ v9_319) % 128 * 33554432)
  let v0_321 := (v0_293 + v4_320 + m9) % 4294967296
  let v12_322 := ((v12_302 ^^^ v0_321) / 65536 + (v12_302 ^^^ v0_321) % 65536 * 65536)
  let v8_323 := (v8_311 + v12_322) % 4294967296
  let v4_324 := ((v4_320 ^^^ v8_323) / 4096 + (v4_320 ^^^ v8_323) % 4096 * 1048576)
  let v0_325 := (v0_321 + v4_324 + m14) % 4294967296
  let v12_326 := ((v12_322 ^^^ v0_325) / 256 + (v12_322 ^^^ v0_325) % 256 * 16777216)
  let v8_327 := (v8_323 + v12_326) % 4294967296
  let v4_328 := ((v4_324 ^^^ v8_327) / 128 + (v4_324 ^^^ v8_327) % 128 * 33554432)
  let v1_329 := (v1_301 + v5_296 + m11) % 4294967296
  let v13_330 := ((v13_310 ^^^ v1_329) / 65536 + (v13_310 ^^^ v1_329) % 65536 * 65536)
  let v9_331 := (v9_319 + v13_330) % 4294967296
  let v5_332 := ((v5_296 ^^^ v9_331) / 4096 + (v5_296 ^^^ v9_331) % 4096 * 1048576)
  let v1_333 := (v1_329 + v5_332 + m5) % 4294967296
  let v13_334 := ((v13_330 ^^^ v1_333) / 256 + (v13_330 ^^^ v1_333) % 256 * 16777216)
  let v9_335 := (v9_331 + v13_334) % 4294967296
  let v5_336 := ((v5_332 ^^^ v9_335) / 128 + (v5_332 ^^^ v9_335) % 128 * 33554432)
  let v2_337 := (v2_309 + v6_304 + m8) % 4294967296
  let v14_338 := ((v14_318 ^^^ v2_337) / 65536 + (v14_318 ^^^ v2_337) % 65536 * 65536)
  let v10_339 := (v10_295 + v14_338) % 4294967296
  let v6_340 := ((v6_304 ^^^ v10_339) / 4096 + (v6_304 ^^^ v10_339) % 4096 * 1048576)
  let v2_341 := (v2_337 + v6_340 + m12) % 4294967296
  let v14_342 := ((v14_338 ^^^ v2_341) / 256 + (v14_338 ^^^ v2_341) % 256 * 16777216)
  let v10_343 := (v10_339 + v14_342) % 4294967296
  let v6_344 := ((v6_340 ^^^ v10_343) / 128 + (v6_340 ^^^ v10_343) % 128 * 33554432)
  let v3_345 := (v3_317 + v7_312 + m15) % 4294967296
  let v15_346 := ((v15_294 ^^^ v3_345) / 65536 + (v15_294 ^^^ v3_345) % 65536 * 65536)
  let v11_347 := (v11_303 + v15_346) % 4294967296
  let v7_348 := ((v7_312 ^^^ v11_347) / 4096 + (v7_312 ^^^ v11_347) % 4096 * 1048576)
  let v3_349 := (v3_345 + v7_348 + m1) % 4294967296
  let v15_350 := ((v15_346 ^^^ v3_349) / 256 + (v15_346 ^^^ v3_349) % 256 * 16777216)
  let v11_351 := (v11_347 + v15_350) % 4294967296
  let v7_352 := ((v7_348 ^^^ v11_351) / 128 + (v7_348 ^^^ v11_351) % 128 * 33554432)
  let v0_353 := (v0_325 + v5_336 + m13) % 4294967296
  let v15_354 := ((v15_350 ^^^ v0_353) / 65536 + (v15_350 ^^^ v0_353) % 65536 * 65536)
  let v10_355 := (v10_343 + v15_354) % 4294967296
  let v5_356 := ((v5_336 ^^^ v10_355) / 4096 + (v5_336 ^^^ v10_355) % 4096 * 1048576)
  let v0_357 := (v0_353 + v5_356 + m3) % 4294967296
  let v15_358 := ((v15_354 ^^^ v0_357) / 256 + (v15_354 ^^^ v0_357) % 256 * 16777216)
  let v10_359 := (v10_355 + v15_358) % 4294967296
  let v5_360 := ((v5_356 ^^^ v10_359) / 128 + (v5_356 ^^^ v10_359) % 128 * 33554432)
  let v1_361 := (v1_333 + v6_344 + m0) % 4294967296
  let v12_362 := ((v12_326 ^^^ v1_361) / 65536 + (v12_326 ^^^ v1_361) % 65536 * 65536)
  let v11_363 := (v11_351 + v12_362) % 4294967296
  let v6_364 := ((v6_344 ^^^ v11_363) / 4096 + (v6_344 ^^^ v11_363) % 4096 * 1048576)
  let v1_365 := (v1_361 + v6_364 + m10) % 4294967296
  let v12_366 := ((v12_362 ^^^ v1_365) / 256 + (v12_362 ^^^ v1_365) % 256 * 16777216)
  let v11_367 := (v11_363 + v12_366) % 4294967296
  let v6_368 := ((v6_364 ^^^ v11_367) / 128 + (v6_364 ^^^ v11_367) % 128 * 33554432)
  let v2_369 := (v2_341 + v7_352 + m2) % 4294967296
  let v13_370 := ((v13_334 ^^^ v2_369) / 65536 + (v13_334 ^^^ v2_369) % 65536 * 65536)
  let v8_371 := (v8_327 + v13_370) % 4294967296
  let v7_372 := ((v7_352 ^^^ v8_371) / 4096 + (v7_352 ^^^ v8_371) % 4096 * 1048576)
  let v2_373 := (v2_369 + v7_372 + m6) % 4294967296
  let v13_374 := ((v13_370 ^^^ v2_373) / 256 + (v13_370 ^^^ v2_373) % 256 * 16777216)
  let v8_375 := (v8_371 + v13_374) % 4294967296
  let v7_376 := ((v7_372 ^^^ v8_375) / 128 + (v7_372 ^^^ v8_375) % 128 * 33554432)
  let v3_377 := (v3_349 + v4_328 + m4) % 4294967296
  let v14_378 := ((v14_342 ^^^ v3_377) / 65536 + (v14_342 ^^^ v3_377) % 65536 * 65536)
  let v9_379 := (v9_335 + v14_378) % 4294967296
  let v4_380 := ((v4_328 ^^^ v9_379) / 4096 + (v4_328 ^^^ v9_379) % 4096 * 1048576)
  let v3_381 := (v3_377 + v4_380 + m7) % 4294967296
  let v14_382 := ((v14_378 ^^^ v3_381) / 256 + (v14_378 ^^^ v3_381) % 256 * 16777216)
  let v9_383 := (v9_379 + v14_382) % 4294967296
  let v4_384 := ((v4_380 ^^^ v9_383) / 128 + (v4_380 ^^^ v9_383) % 128 * 33554432)
  let v0_385 := (v0_357 + v4_384 + m11) % 4294967296
  let v12_386 := ((v12_366 ^^^ v0_385) / 65536 + (v12_366 ^^^ v0_385) % 65536 * 65536)
  let v8_387 := (v8_375 + v12_386) % 4294967296
  let v4_388 := ((v4_384 ^^^ v8_387) / 4096 + (v4_384 ^^^ v8_387) % 4096 * 1048576)
  let v0_389 := (v0_385 + v4_388 + m15) % 4294967296
  let v12_390 := ((v12_386 ^^^ v0_389) / 256 + (v12_386 ^^^ v0_389) % 256 * 16777216)
  let v8_391 := (v8_387 + v12_390) % 4294967296
  let v4_392 := ((v4_388 ^^^ v8_391) / 128 + (v4_388 ^^^ v8_391) % 128 * 33554432)
  let v1_393 := (v1_365 + v5_360 + m5) % 4294967296
  let v13_394 := ((v13_374 ^^^ v1_393) / 65536 + (v13_374 ^^^ v1_393) % 65536 * 65536)
  let v9_395 := (v9_383 + v13_394) % 4294967296
  let v5_396 := ((v5_360 ^^^ v9_395) / 4096 + (v5_360 ^^^ v9_395) % 4096 * 1048576)
  let v1_397 := (v1_393 + v5_396 + m0) % 4294967296
  let v13_398 := ((v13_394 ^^^ v1_397) / 256 + (v13_394 ^^^ v1_397) % 256 * 16777216)
  let v9_399 := (v9_395 + v13_398) % 4294967296
  let v5_400 := ((v5_396 ^^^ v9_399) / 128 + (v5_396 ^^^ v9_399) % 128 * 33554432)
  let v2_401 := (v2_373 + v6_368 + m1) % 4294967296
  let v14_402 := ((v14_382 ^^^ v2_401) / 65536 + (v14_382 ^^^ v2_401) % 65536 * 65536)
  let v10_403 := (v10_359 + v14_402) % 4294967296
  let v6_404 := ((v6_368 ^^^ v10_403) / 4096 + (v6_368 ^^^ v10_403) % 4096 * 1048576)
  let v2_405 := (v2_401 + v6_404 + m9) % 4294967296
  let v14_406 := ((v14_402 ^^^ v2_405) / 256 + (v14_402 ^^^ v2_405) % 256 * 16777216)
  let v10_407 := (v10_403 + v14_406) % 4294967296
  let v6_408 := ((v6_404 ^^^ v10_407) / 128 + (v6_404 ^^^ v10_407) % 128 * 33554432)
  let v3_409 := (v3_381 + v7_376 + m8) % 4294967296
  let v15_410 := ((v15_358 ^^^ v3_409) / 65536 + (v15_358 ^^^ v3_409) % 65536 * 65536)
  let v11_411 := (v11_367 + v15_410) % 4294967296
  let v7_412 := ((v7_376 ^^^ v11_411) / 4096 + (v7_376 ^^^ v11_411) % 4096 * 1048576)
  let v3_413 := (v3_409 + v7_412 + m6) % 4294967296
  let v15_414 := ((v15_410 ^^^ v3_413) / 256 + (v15_410 ^^^ v3_413) % 256 * 16777216)
  let v11_415 := (v11_411 + v15_414) % 4294967296
  let v7_416 := ((v7_412 ^^^ v11_415) / 128 + (v7_412 ^^^ v11_415) % 128 * 33554432)
  let v0_417 := (v0_389 + v5_400 + m14) % 4294967296
  let v15_418 := ((v15_414 ^^^ v0_417) / 65536 + (v15_414 ^^^ v0_417) % 65536 * 65536)
  let v10_419 := (v10_407 + v15_418) % 4294967296
  let v5_420 := ((v5_400 ^^^ v10_419) / 4096 + (v5_400 ^^^ v10_419) % 4096 * 1048576)
  let v0_421 := (v0_417 + v5_420 + m10) % 4294967296
  let v15_422 := ((v15_418 ^^^ v0_421) / 256 + (v15_418 ^^^ v0_421) % 256 * 16777216)
  let v10_423 := (v10_419 + v15_422) % 4294967296
  let v5_424 := ((v5_420 ^^^ v10_423) / 128 + (v5_420 ^^^ v10_423) % 128 * 33554432)
  let v1_425 := (v1_397 + v6_408 + m2) % 4294967296
  let v12_426 := ((v12_390 ^^^ v1_425) / 65536 + (v12_390 ^^^ v1_425) % 65536 * 65536)
  let v11_427 := (v11_415 + v12_426) % 4294967296
  let v6_428 := ((v6_408 ^^^ v11_427) / 4096 + (v6_408 ^^^ v11_427) % 4096 * 1048576)
  let v1_429 := (v1_425 + v6_428 + m12) % 4294967296
  let v12_430 := ((v12_426 ^^^ v1_429) / 256 + (v12_426 ^^^ v1_429) % 256 * 16777216)
  let v11_431 := (v11_427 + v12_430) % 4294967296
  let v6_432 := ((v6_428 ^^^ v11_431) / 128 + (v6_428 ^^^ v11_431) % 128 * 33554432)
  let v2_433 := (v2_405 + v7_416 + m3) % 4294967296
  let v13_434 := ((v13_398 ^^^ v2_433) / 65536 + (v13_398 ^^^ v2_433) % 65536 * 65536)
  let v8_435 := (v8_391 + v13_434) % 4294967296
  let v7_436 := ((v7_416 ^^^ v8_435) / 4096 + (v7_416 ^^^ v8_435) % 4096 * 1048576)
  let v2_437 := (v2_433 + v7_436 + m4) % 4294967296
  let v13_438 := ((v13_434 ^^^ v2_437) / 256 + (v13_434 ^^^ v2_437) % 256 * 16777216)
  let v8_439 := (v8_435 + v13_438) % 4294967296
  let v7_440 := ((v7_436 ^^^ v8_439) / 128 + (v7_436 ^^^ v8_439) % 128 * 33554432)
  let v3_441 := (v3_413 + v4_392 + m7) % 4294967296
  let v14_442 := ((v14_406 ^^^ v3_441) / 65536 + (v14_406 ^^^ v3_441) % 65536 * 65536)
  let v9_443 := (v9_399 + v14_442) % 4294967296
  let v4_444 := ((v4_392 ^^^ v9_443) / 4096 + (v4_392 ^^^ v9_443) % 4096 * 1048576)
  let v3_445 := (v3_441 + v4_444 + m13) % 4294967296
  let v14_446 := ((v14_442 ^^^ v3_445) / 256 + (v14_442 ^^^ v3_445) % 256 * 16777216)
  let v9_447 := (v9_443 + v14_446) % 4294967296
  let v4_448 := ((v4_444 ^^^ v9_447) / 128 + (v4_444 ^^^ v9_447) % 128 * 33554432)
  [v0_421 ^^^ v8_439,
   v1_429 ^^^ v9_447,
   v2_437 ^^^ v10_423,
   v3_445 ^^^ v11_431,
   v4_448 ^^^ v12_430,
   v5_424 ^^^ v13_438,
   v6_432 ^^^ v14_446,
   v7_440 ^^^ v15_422,
   v8_439 ^^^ h0,
   v9_447 ^^^ h1,
   v10_423 ^^^ h2,
   v11_431 ^^^ h3,
   v12_430 ^^^ h4,
   v13_438 ^^^ h5,
   v14_446 ^^^ h6,
   v15_422 ^^^ h7]

/-- The four little-endian bytes of a 32-bit word. -/
def le32bytes (x : Nat) : List Nat := [x % 256, x / 256 % 256, x / 65536 % 256, x / 16777216 % 256]

/-- The i-th little-endian 32-bit word of a 64-byte BLAKE3 block (zero-padded). -/
def blockWord (b : List Nat) (i : Nat) : Nat := leVal ((b.drop (4 * i)).take 4)

/-- Apply the BLAKE3 compression function to a chaining value (8 words) and a
byte block (at most 64 bytes, zero-padded to 16 words). -/
def blake3CompressBlock (cv : List Nat) (b : List Nat) (counter blockLen flags : Nat) : List Nat :=
  blake3Compress (cv.getD 0 0) (cv.getD 1 0) (cv.getD 2 0) (cv.getD 3 0)
    (cv.getD 4 0) (cv.getD 5 0) (cv.getD 6 0) (cv.getD 7 0)
    (blockWord b 0) (blockWord b 1) (blockWord b 2) (blockWord b 3)
    (blockWord b 4) (blockWord b 5) (blockWord b 6) (blockWord b 7)
    (blockWord b 8) (blockWord b 9) (blockWord b 10) (blockWord b 11)
    (blockWord b 12) (blockWord b 13) (blockWord b 14) (blockWord b 15)
    counter blockLen flags

/-- The BLAKE3 initialization vector. -/
def blake3IV : List Nat :=
  [1779033703, 3144134277, 1013904242, 2773480762, 1359893119, 2600822924, 528734635, 1541459225]

/-- Split a message into 64-byte blocks (the last block may be short; an empty
message yields one empty block). The fuel bounds the number of blocks; 16
covers a full 1024-byte chunk. -/
def splitBlocks (fuel : Nat) (bs : List Nat) : List (List Nat) :=
  match fuel with
  | 0 => [bs]
  | f + 1 => if bs.length ≤ 64 then [bs] else bs.take 64 :: splitBlocks f (bs.drop 64)

/-- Compress the blocks of a single BLAKE3 chunk in sequence. The first block
carries the CHUNK_START flag (1); the last carries CHUNK_END and ROOT (2 + 8)
and yields the 32-byte root digest (first eight output words, little-endian). -/
def processBlocks : List (List Nat) → List Nat → Nat → Bytes
  | [], cv, _ => ((cv.take 8).map le32bytes).flatten
  | [b], cv, startFlag =>
    let out := blake3CompressBlock cv b 0 b.length (startFlag + 2 + 8)
    ((out.take 8).map le32bytes).flatten
  | b :: rest, cv, startFlag =>
    let out := blake3CompressBlock cv b 0 64 startFlag
    processBlocks rest (out.take 8) 0

/-- BLAKE3 hash (32-byte digest) of a message of at most one chunk (1024
bytes); every message hashed by the note scheme is far below that bound
(90 bytes for commitments, 12 + signature length for nullifiers). -/
def blake3Hash (input : List Nat) : Bytes :=
  processBlocks (splitBlocks 16 input) blake3IV 1

/-! ## Notes, commitments and nullifiers (source: core/src/note.rs) -/

/-- The byte string "NOTE_COMMITMENT_v1" (source: NOTE_COMMITMENT_DOMAIN). -/
def NOTE_COMMITMENT_DOMAIN : Bytes :=
  [78, 79, 84, 69, 95, 67, 79, 77, 77, 73, 84, 77, 69, 78, 84, 95, 118, 49]

/-- The byte string "NULLIFIER_v1" (source: NULLIFIER_DOMAIN). -/
def NULLIFIER_DOMAIN : Bytes :=
  [78, 85, 76, 76, 73, 70, 73, 69, 82, 95, 118, 49]

/-- A UTXO note (source: core/src/note.rs, Note). The amount is a 64-bit
integer in the source; owner key and blinding are 32-byte values. -/
structure Note where
  amount : Nat
  owner_pubkey : Bytes
  blinding : Bytes
deriving DecidableEq

/-- Commitment of a note: BLAKE3 of the domain separator, the amount as eight
little-endian bytes, the owner key and the blinding
(source: core/src/note.rs, commit). -/
def commit (note : Note) : Bytes :=
  blake3Hash (NOTE_COMMITMENT_DOMAIN ++ le64bytes note.amount ++ note.owner_pubkey ++ note.blinding)

/-- Nullifier of a spend: BLAKE3 of the domain separator and the authorization
signature bytes (source: core/src/note.rs, compute_nullifier). -/
def compute_nullifier (signature : Bytes) : Bytes :=
  blake3Hash (NULLIFIER_DOMAIN ++ signature)

/-! ## The incremental fixed-height Merkle tree (source: core/src/merkle.rs) -/

/-- Tree height of the fixed-size incremental Merkle tree (source: TREE_HEIGHT). -/
def TREE_HEIGHT : Nat := 32

/-- Precomputed zero-subtree hashes: level 0 is the all-zero 32-byte leaf, and
each next level hashes two copies of the previous one (source: ZEROS; the
source materializes levels 0 to TREE_HEIGHT - 1 as a table). -/
def zeros : Nat → Bytes
  | 0 => List.replicate 32 0
  | n + 1 => hash_pair (zeros n) (zeros n)

/-- A Merkle proof: the leaf position and the sibling hashes from the leaf's
level upward (source: MerkleProof). -/
structure MerkleProof where
  leaf_index : Nat
  siblings : List Bytes
deriving DecidableEq

/-- The incremental Merkle tree state (source: MerkleTree). The
`filled_subtrees` array (one 32-byte entry per level, initialized to the ZEROS
table) is modelled as a function from level to value. -/
structure MerkleTree where
  leaves : List Bytes
  filled_subtrees : Nat → Bytes
  next_index : Nat

/-- A fresh empty tree (source: MerkleTree::new). -/
def MerkleTree.new : MerkleTree :=
  { leaves := [], filled_subtrees := zeros, next_index := 0 }

/-- The level-indexed loop of push_leaf: walking up from the new leaf, at each
level either record the running hash as the new leftmost filled node (even
position) and continue with the zero sibling on the right, or continue with
the filled node on the left (odd position). Returns the updated
filled_subtrees function. -/
def pushLoop : Nat → Nat → (Nat → Bytes) → Bytes → Nat → (Nat → Bytes)
  | _, 0, fs, _, _ => fs
  | level, fuel + 1, fs, c, i =>
    if i % 2 = 0 then
      pushLoop (level + 1) fuel (fun l => if l = level then c else fs l)
        (hash_pair c (zeros level)) (i / 2)
    else
      pushLoop (level + 1) fuel fs (hash_pair (fs level) c) (i / 2)

/-- Append a leaf (source: MerkleTree::push_leaf): the leaf is recorded, the
filled-subtree cache is updated over all TREE_HEIGHT levels starting from the
pre-increment next_index, and the count advances. -/
def MerkleTree.push_leaf (t : MerkleTree) (leaf : Bytes) : MerkleTree :=
  { leaves := t.leaves ++ [leaf],
    filled_subtrees := pushLoop 0 TREE_HEIGHT t.filled_subtrees leaf t.next_index,
    next_index := t.next_index + 1 }

/-- The level-indexed loop of root: walk up from the last inserted leaf,
hashing with the zero sibling on even positions and with the filled subtree on
odd positions. -/
def rootLoop : Nat → Nat → (Nat → Bytes) → Bytes → Nat → Bytes
  | _, 0, _, c, _ => c
  | level, fuel + 1, fs, c, i =>
    if i % 2 = 0 then
      rootLoop (level + 1) fuel fs (hash_pair c (zeros level)) (i / 2)
    else
      rootLoop (level + 1) fuel fs (hash_pair (fs level) c) (i / 2)

/-- Current root (source: MerkleTree::root): the zero hash of level
TREE_HEIGHT - 1 when the tree is empty, else the hash chain from the last
inserted leaf (position next_index - 1) through all TREE_HEIGHT levels. -/
def MerkleTree.root (t : MerkleTree) : Bytes :=
  if t.leaves.isEmpty then zeros (TREE_HEIGHT - 1)
  else rootLoop 0 TREE_HEIGHT t.filled_subtrees
    (t.leaves.getD (t.leaves.length - 1) (zeros 0)) (t.next_index - 1)

/-- Number of leaves (source: MerkleTree::leaf_count). -/
def MerkleTree.leaf_count (t : MerkleTree) : Nat := t.leaves.length

/-- Build the next level of nodes from the current one, pairing neighbours and
padding a trailing odd node with the current level's zero hash (source: the
inner while loop of MerkleTree::prove). -/
def buildNext (level : Nat) : List Bytes → List Bytes
  | [] => []
  | [x] => [hash_pair x (zeros level)]
  | x :: y :: rest => hash_pair x y :: buildNext level rest

/-- The level loop of prove: collect the sibling at each level (the level's
zero hash when out of range), rebuild the next level, and break early once the
rebuilt level has at most one node (source: the for loop of
MerkleTree::prove, including its early-exit condition). -/
def proveLoop : Nat → Nat → List Bytes → Nat → List Bytes → List Bytes
  | _, 0, _, _, sibs => sibs
  | level, fuel + 1, nodes, i, sibs =>
    let sibIdx := if i % 2 = 0 then i + 1 else i - 1
    let sibs2 := sibs ++ [nodes.getD sibIdx (zeros level)]
    let next := buildNext level nodes
    if next.length ≤ 1 ∧ level + 1 ≥ sibs2.length then sibs2
    else proveLoop (level + 1) fuel next (i / 2) sibs2

/-- Pad the sibling list with zero hashes (at the level given by the current
length) until it has TREE_HEIGHT entries (source: the final while loop of
MerkleTree::prove). The fuel of TREE_HEIGHT covers every reachable start
length. -/
def padLoop : Nat → List Bytes → List Bytes
  | 0, sibs => sibs
  | fuel + 1, sibs =>
    if sibs.length < TREE_HEIGHT then padLoop fuel (sibs ++ [zeros sibs.length]) else sibs

/-- Generate a Merkle proof (source: MerkleTree::prove): absent when the index
is out of bounds, else the collected siblings padded to TREE_HEIGHT entries. -/
def MerkleTree.prove (t : MerkleTree) (leaf_index : Nat) : Option MerkleProof :=
  if leaf_index ≥ t.leaves.length then none
  else some ⟨leaf_index, padLoop TREE_HEIGHT (proveLoop 0 TREE_HEIGHT t.leaves leaf_index [])⟩

/-- The sibling fold of verify_proof: combine the running hash with each
sibling (current value on the left at even positions, on the right at odd
ones), halving the index, and stop after the sibling of level
TREE_HEIGHT - 1 (source: the for loop of MerkleTree::verify_proof, including
its early exit). -/
def verifyFold : Nat → Bytes → Nat → List Bytes → Bytes
  | _, c, _, [] => c
  | level, c, i, s :: rest =>
    let c2 := if i % 2 = 0 then hash_pair c s else hash_pair s c
    if level ≥ TREE_HEIGHT - 1 then c2 else verifyFold (level + 1) c2 (i / 2) rest

/-- Verify a Merkle proof against an expected root (source:
MerkleTree::verify_proof): the rebuilt root must equal the expected one. -/
def MerkleTree.verify_proof (leaf : Bytes) (proof : MerkleProof) (expected_root : Bytes) : Bool :=
  decide (verifyFold 0 leaf proof.leaf_index proof.siblings = expected_root)

/-- Push a list of leaves into a fresh tree, in order (source:
MerkleTree::with_leaves). -/
def pushAll (ls : List Bytes) : MerkleTree := ls.foldl MerkleTree.push_leaf MerkleTree.new

/-! ## Reference tree semantics

The reference root of a leaf sequence is obtained by placing the leaves at the
first positions of the 2 ^ TREE_HEIGHT leaf slots, filling the remaining slots
with the all-zero leaf ZEROS[0], and hashing pairwise bottom-up through
TREE_HEIGHT levels. `refNode ls L k` is the node at level L and position k of
that fully padded tree. -/

/-- Node at level L, position k of the zero-padded reference tree over the
leaf list. -/
def refNode (ls : List Bytes) : Nat → Nat → Bytes
  | 0, k => ls.getD k (zeros 0)
  | L + 1, k => hash_pair (refNode ls L (2 * k)) (refNode ls L (2 * k + 1))

/-- The reference root: the single node at level TREE_HEIGHT. -/
def refRoot (ls : List Bytes) : Bytes := refNode ls TREE_HEIGHT 0

/-- The list of materialized nodes at each level of the reference tree, as the
prove loop rebuilds them. -/
def levels (ls : List Bytes) : Nat → List Bytes
  | 0 => ls
  | L + 1 => buildNext L (levels ls L)

/-- Position of the sibling on the path of leaf i at level L: the neighbour of
i / 2 ^ L. -/
def proofSibIndex (i L : Nat) : Nat :=
  if i / 2 ^ L % 2 = 0 then i / 2 ^ L + 1 else i / 2 ^ L - 1

/-- The fold a verifier would perform with one combining step per provided
sibling, with no cap on the number of levels: the semantics the specification
ascribes to verify_proof. -/
def verifyAllSiblings : Bytes → Nat → List Bytes → Bytes
  | c, _, [] => c
  | c, i, s :: rest =>
    verifyAllSiblings (if i % 2 = 0 then hash_pair c s else hash_pair s c) (i / 2) rest

/-! ## The proving program (source: prover/program/src/main.rs)

The `utxo_prototype` library the program links against (Witness, Ledger and
the transaction simulator) is not part of the available sources; its
definitions below are modelled from the specification and are marked as such.
The entry point `programMain` itself is translated from
prover/program/src/main.rs, with a Rust panic modelled as an error result. -/

/-- Modelled from the spec: the optional host-precomputed caches carried by a
Witness (precomputed nullifiers, input commitments, output commitments). -/
structure Precomputed where
  nullifiers : List Bytes
  input_commitments : List Bytes
  output_commitments : List Bytes

/-- Modelled from the spec: a caller-supplied transaction proposal — input
notes, their tree indices, their Merkle proofs, per-input authorization and
spend signatures, output notes, and the optional precomputed caches. -/
structure Witness where
  input_notes : List Note
  input_indices : List Nat
  input_proofs : List MerkleProof
  nullifier_signatures : List Bytes
  tx_signatures : List Bytes
  output_notes : List Note
  precomputed : Option Precomputed

/-- Modelled from the spec: `Witness::has_precomputed_values`, gating the
optimized path — true exactly when the precomputed caches are present. -/
def has_precomputed_values (w : Witness) : Bool := w.precomputed.isSome

/-- Modelled from the spec: the Ledger owns one Merkle accumulator and the set
of used nullifiers. -/
structure Ledger where
  tree : MerkleTree
  nullifiers : List Bytes

/-- Modelled from the spec: a fresh empty ledger. -/
def Ledger.new : Ledger := { tree := MerkleTree.new, nullifiers := [] }

/-- Public inputs read by the proving program: the asserted pre-state root
(source: prover/program/src/main.rs). -/
structure PublicInputs where
  old_root : Bytes

/-- Public outputs committed by the proving program (source:
prover/program/src/main.rs and the spec's PublicOutputs). -/
structure PublicOutputs where
  old_root : Bytes
  nullifiers : List Bytes
  output_commitments : List Bytes
deriving DecidableEq

/-- The failure classes of witness validation and transaction execution; a
Rust panic or assertion failure in the program is modelled as one of these. -/
inductive ProgError where
  | structural
  | conservation
  | emptyTransaction
  | commitmentMismatch
  | indexOutOfBounds
  | proofCountMismatch
  | merkleInclusion
  | nullifierMismatch
  | doubleSpend
  | standardPathDisabled
  | nullifierCountMismatch
  | commitmentCountMismatch
deriving DecidableEq

/-- Modelled from the spec: `Witness::validate_structure` — the counts of
input notes, indices, Merkle proofs and both signature lists must agree, and
the transaction must have at least one input or one output. -/
def validate_structure (w : Witness) : Except ProgError Unit :=
  if w.input_notes.length = w.input_indices.length ∧
      w.input_notes.length = w.input_proofs.length ∧
      w.input_notes.length = w.nullifier_signatures.length ∧
      w.input_notes.length = w.tx_signatures.length ∧
      (w.input_notes ≠ [] ∨ w.output_notes ≠ []) then
    Except.ok ()
  else Except.error ProgError.structural

/-- Checked 64-bit addition: absent on overflow, never wrapping. -/
def checkedAdd (a b : Nat) : Option Nat :=
  if a + b < 2 ^ 64 then some (a + b) else none

/-- Sum of a list of 64-bit amounts with per-step overflow detection. -/
def checkedSum : List Nat → Option Nat
  | [] => some 0
  | x :: xs =>
    match checkedSum xs with
    | none => none
    | some s => checkedAdd x s

/-- Modelled from the spec: `Witness::validate_value_conservation` — both
amount sums are computed with overflow checking and the input sum must be at
least the output sum; any overflow is a conservation error. -/
def validate_value_conservation (w : Witness) : Except ProgError Unit :=
  match checkedSum (w.input_notes.map Note.amount),
      checkedSum (w.output_notes.map Note.amount) with
  | some inSum, some outSum =>
    if outSum ≤ inSum then Except.ok () else Except.error ProgError.conservation
  | _, _ => Except.error ProgError.conservation

/-- Recompute each note's commitment and compare it with the corresponding
precomputed entry, in order (source: step 3 of prover/program/src/main.rs; a
missing entry is the Rust index panic). -/
def checkCommitments : List Note → List Bytes → Except ProgError Unit
  | [], _ => Except.ok ()
  | _ :: _, [] => Except.error ProgError.indexOutOfBounds
  | n :: ns, c :: cs =>
    if commit n = c then checkCommitments ns cs else Except.error ProgError.commitmentMismatch

/-- Modelled from the spec: recheck each precomputed nullifier against the
nullifier recomputed from the corresponding authorization signature, one per
input note in input order. -/
def checkNullifiers : List Note → List Bytes → List Bytes → Except ProgError Unit
  | [], _, _ => Except.ok ()
  | _ :: ns, s :: ss, p :: ps =>
    if compute_nullifier s = p then checkNullifiers ns ss ps
    else Except.error ProgError.nullifierMismatch
  | _ :: _, _, _ => Except.error ProgError.indexOutOfBounds

/-- Modelled from the spec: reject a nullifier already recorded as used or
repeated within the same transaction. -/
def checkDoubleSpend : List Bytes → List Bytes → Except ProgError Unit
  | _, [] => Except.ok ()
  | used, n :: ns =>
    if n ∈ used then Except.error ProgError.doubleSpend else checkDoubleSpend (n :: used) ns

/-- Modelled from the spec: `simulate_tx_with_precomputed` — the optimized
state transition. It rechecks the precomputed nullifiers against the
signatures and the precomputed output commitments against the output notes,
checks double spending against the ledger and within the transaction, appends
the output commitments to the accumulator, records the nullifiers, and emits
PublicOutputs with the pre-state root, the nullifiers in input order and the
output commitments in output order. Transaction signatures are verified by
the untrusted host and are not re-verified here. -/
def simulate_tx_with_precomputed (ledger : Ledger) (nullifier_sigs _tx_sigs : List Bytes)
    (input_notes output_notes : List Note)
    (pre_nulls _pre_in_comms pre_out_comms : List Bytes) :
    Except ProgError (Ledger × PublicOutputs) :=
  match checkNullifiers input_notes nullifier_sigs pre_nulls with
  | Except.error e => Except.error e
  | Except.ok _ =>
    match checkCommitments output_notes pre_out_comms with
    | Except.error e => Except.error e
    | Except.ok _ =>
      match checkDoubleSpend ledger.nullifiers pre_nulls with
      | Except.error e => Except.error e
      | Except.ok _ =>
        Except.ok
          ({ tree := pre_out_comms.foldl MerkleTree.push_leaf ledger.tree,
             nullifiers := ledger.nullifiers ++ pre_nulls },
           { old_root := ledger.tree.root,
             nullifiers := pre_nulls,
             output_commitments := pre_out_comms })

/-- The Merkle-inclusion check of step 4: every input note's commitment must
verify against the asserted old root with its provided proof (source:
prover/program/src/main.rs). -/
def merkleChecksPass (pi : PublicInputs) (w : Witness) : Bool :=
  (w.input_notes.zip w.input_proofs).all fun np =>
    MerkleTree.verify_proof (commit np.1) np.2 pi.old_root

/-- The proving program entry point (source: prover/program/src/main.rs):
structural validation, value conservation, the non-empty assertion, the
precomputed input-commitment recheck, the proof-count assertion, the Merkle
inclusion checks, then either the optimized path (with the emitted old_root
overwritten by the asserted public input) or the disabled standard path, and
finally the output-count assertions. A panic is an error result. -/
def programMain (pi : PublicInputs) (w : Witness) : Except ProgError PublicOutputs :=
  match validate_structure w with
  | Except.error e => Except.error e
  | Except.ok _ =>
    match validate_value_conservation w with
    | Except.error e => Except.error e
    | Except.ok _ =>
      if w.input_notes.isEmpty ∧ w.output_notes.isEmpty then
        Except.error ProgError.emptyTransaction
      else
        match
          (match w.precomputed with
           | none => Except.ok ()
           | some pre => checkCommitments w.input_notes pre.input_commitments) with
        | Except.error e => Except.error e
        | Except.ok _ =>
          if w.input_proofs.length ≠ w.input_notes.length then
            Except.error ProgError.proofCountMismatch
          else if merkleChecksPass pi w = false then
            Except.error ProgError.merkleInclusion
          else
            match w.precomputed with
            | none => Except.error ProgError.standardPathDisabled
            | some pre =>
              match
                simulate_tx_with_precomputed Ledger.new w.nullifier_signatures
                  w.tx_signatures w.input_notes w.output_notes
                  pre.nullifiers pre.input_commitments pre.output_commitments with
              | Except.error e => Except.error e
              | Except.ok (_, outs0) =>
                if outs0.nullifiers.length ≠ w.input_notes.length then
                  Except.error ProgError.nullifierCountMismatch
                else if outs0.output_commitments.length ≠ w.output_notes.length then
                  Except.error ProgError.commitmentCountMismatch
                else Except.ok { outs0 with old_root := pi.old_root }

/-! ## Concrete example objects used by witnesses and counterexamples -/

/-- The all-zero 32-byte value. -/
def zeroLeaf : Bytes := List.replicate 32 0

/-- A sample 32-byte leaf. -/
def exLeaf : Bytes := List.replicate 32 1

/-- The note with amount 0, all-zero owner key and all-zero blinding (the
first cross-language commitment test vector). -/
def exNote : Note := { amount := 0, owner_pubkey := zeroLeaf, blinding := zeroLeaf }

/-- The commitment digest of `exNote`
(hex 1e8af20d48ee936d9103eababd56c1e38bf109efb7989b952c3fd8567a0acea0). -/
def exNoteCommitment : Bytes :=
  [30, 138, 242, 13, 72, 238, 147, 109, 145, 3, 234, 186, 189, 86, 193, 227,
   139, 241, 9, 239, 183, 152, 155, 149, 44, 63, 216, 86, 122, 10, 206, 160]

/-- Sample public inputs with an all-zero asserted root. -/
def exPublicInputs : PublicInputs := { old_root := zeroLeaf }

/-- A witness with no inputs, one zero-amount output, and no precomputed
caches. -/
def exWitnessNoPre : Witness :=
  { input_notes := [], input_indices := [], input_proofs := [],
    nullifier_signatures := [], tx_signatures := [],
    output_notes := [exNote], precomputed := none }

/-- The same witness with precomputed caches: no inputs, and the single output
commitment precomputed by the host. -/
def exWitnessPre : Witness :=
  { input_notes := [], input_indices := [], input_proofs := [],
    nullifier_signatures := [], tx_signatures := [],
    output_notes := [exNote],
    precomputed := some
      { nullifiers := [], input_commitments := [], output_commitments := [exNoteCommitment] } }

/-- The public outputs the program commits for `exWitnessPre`. -/
def exOutputs : PublicOutputs :=
  { old_root := zeroLeaf, nullifiers := [], output_commitments := [exNoteCommitment] }

/-- A Merkle proof with 33 sibling entries, one more than the tree height. -/
def longProof : MerkleProof := { leaf_index := 0, siblings := List.replicate 33 zeroLeaf }

/-- Values of the iterated fold c(k+1) = hash_pair c(k) 0^32 starting from the
all-zero leaf: chainLitK is c(K). Used to evaluate the verification fold on a
33-sibling proof. -/
def chainLit0 : Bytes := [0, 0, 0, 0, 0, 0, 0, 0, 0, 0, 0, 0, 0, 0, 0, 0, 0, 0, 0, 0, 0, 0, 0, 0, 0, 0, 0, 0, 0, 0, 0, 0]

/-- Fold value c(1). -/
def chainLit1 : Bytes := [173, 50, 40, 182, 118, 247, 211, 205, 66, 132, 165, 68, 63, 23, 241, 150, 43, 54, 228, 145, 179, 10, 64, 178, 64, 88, 73, 229, 151, 186, 95, 181]

/-- Fold value c(2). -/
def chainLit2 : Bytes := [151, 201, 42, 223, 138, 58, 77, 34, 9, 22, 168, 155, 135, 164, 224, 94, 178, 17, 71, 51, 236, 220, 235, 195, 51, 72, 4, 43, 88, 220, 28, 61]

/-- Fold value c(3). -/
def chainLit3 : Bytes := [176, 71, 202, 155, 224, 98, 19, 247, 238, 2, 38, 236, 212, 146, 207, 10, 137, 86, 152, 115, 81, 165, 94, 84, 190, 24, 75, 217, 124, 49, 103, 201]

/-- Fold value c(4). -/
def chainLit4 : Bytes := [117, 92, 185, 53, 133, 176, 103, 176, 175, 118, 202, 124, 78, 7, 105, 67, 107, 2, 214, 106, 182, 111, 163, 163, 140, 191, 223, 64, 59, 218, 73, 201]

/-- Fold value c(5). -/
def chainLit5 : Bytes := [22, 158, 12, 225, 72, 72, 192, 103, 69, 81, 254, 222, 29, 202, 55, 118, 232, 56, 175, 60, 154, 140, 104, 18, 216, 85, 67, 25, 101, 197, 212, 165]

/-- Fold value c(6). -/
def chainLit6 : Bytes := [165, 98, 21, 14, 177, 156, 97, 89, 76, 205, 49, 77, 154, 43, 76, 185, 64, 104, 30, 217, 144, 131, 146, 187, 6, 205, 118, 186, 50, 234, 210, 241]

/-- Fold value c(7). -/
def chainLit7 : Bytes := [176, 87, 138, 20, 151, 85, 255, 119, 194, 17, 20, 227, 112, 95, 239, 88, 144, 194, 139, 163, 245, 188, 230, 120, 122, 133, 232, 17, 147, 0, 243, 66]

/-- Fold value c(8). -/
def chainLit8 : Bytes := [98, 132, 133, 125, 182, 85, 221, 233, 114, 141, 27, 126, 196, 218, 219, 227, 237, 171, 242, 11, 40, 33, 234, 180, 48, 70, 39, 233, 157, 168, 53, 202]

/-- Fold value c(9). -/
def chainLit9 : Bytes := [23, 203, 9, 216, 119, 120, 135, 7, 76, 97, 208, 192, 225, 126, 116, 7, 109, 24, 171, 79, 126, 171, 196, 10, 243, 20, 134, 124, 121, 15, 112, 96]

/-- Fold value c(10). -/
def chainLit10 : Bytes := [108, 227, 254, 216, 148, 195, 18, 165, 91, 244, 225, 162, 149, 188, 218, 47, 121, 235, 75, 200, 87, 69, 73, 10, 44, 101, 47, 206, 35, 69, 86, 59]

/-- Fold value c(11). -/
def chainLit11 : Bytes := [35, 19, 223, 166, 178, 55, 166, 51, 159, 16, 151, 142, 63, 234, 159, 95, 119, 249, 186, 192, 176, 123, 178, 191, 19, 48, 30, 91, 53, 146, 193, 227]

/-- Fold value c(12). -/
def chainLit12 : Bytes := [28, 93, 98, 82, 252, 50, 62, 218, 83, 202, 225, 135, 45, 115, 193, 14, 20, 13, 180, 238, 246, 0, 204, 118, 247, 149, 46, 49, 33, 185, 196, 75]

/-- Fold value c(13). -/
def chainLit13 : Bytes := [208, 164, 33, 25, 57, 201, 220, 108, 219, 11, 106, 67, 11, 53, 176, 228, 230, 222, 245, 203, 48, 227, 128, 195, 119, 155, 41, 110, 148, 121, 61, 57]

/-- Fold value c(14). -/
def chainLit14 : Bytes := [216, 125, 193, 172, 25, 24, 22, 34, 33, 211, 118, 47, 238, 153, 50, 179, 2, 5, 194, 54, 82, 240, 87, 246, 176, 151, 53, 8, 148, 198, 121, 32]

/-- Fold value c(15). -/
def chainLit15 : Bytes := [102, 5, 199, 158, 234, 187, 41, 175, 206, 240, 126, 88, 7, 200, 75, 159, 169, 88, 134, 233, 131, 172, 231, 202, 206, 211, 44, 166, 128, 250, 40, 48]

/-- Fold value c(16). -/
def chainLit16 : Bytes := [77, 27, 142, 59, 87, 2, 147, 229, 117, 169, 173, 235, 75, 71, 153, 42, 22, 167, 241, 52, 46, 54, 3, 49, 35, 24, 83, 102, 43, 140, 146, 175]

/-- Fold value c(17). -/
def chainLit17 : Bytes := [107, 2, 119, 16, 9, 194, 113, 68, 88, 139, 170, 207, 117, 203, 164, 109, 177, 88, 120, 53, 141, 45, 80, 180, 246, 108, 37, 66, 75, 55, 126, 89]

/-- Fold value c(18). -/
def chainLit18 : Bytes := [108, 221, 193, 49, 173, 44, 174, 134, 98, 231, 144, 234, 199, 199, 82, 143, 126, 179, 232, 200, 151, 114, 247, 96, 203, 37, 161, 233, 132, 220, 44, 154]

/-- Fold value c(19). -/
def chainLit19 : Bytes := [165, 126, 220, 220, 233, 62, 53, 234, 40, 148, 154, 191, 77, 182, 123, 215, 200, 81, 242, 192, 98, 58, 232, 222, 186, 239, 223, 148, 231, 145, 30, 133]

/-- Fold value c(20). -/
def chainLit20 : Bytes := [74, 58, 144, 80, 220, 155, 92, 230, 136, 238, 205, 66, 74, 14, 171, 133, 176, 155, 94, 175, 41, 113, 45, 187, 138, 127, 179, 71, 227, 234, 30, 178]

/-- Fold value c(21). -/
def chainLit21 : Bytes := [218, 141, 40, 24, 173, 107, 14, 119, 27, 208, 129, 206, 43, 136, 89, 51, 11, 205, 166, 204, 203, 68, 143, 245, 153, 142, 194, 251, 47, 223, 181, 71]

/-- Fold value c(22). -/
def chainLit22 : Bytes := [61, 188, 168, 35, 97, 3, 32, 60, 217, 83, 198, 160, 236, 199, 111, 23, 197, 60, 103, 185, 220, 204, 94, 184, 94, 43, 91, 94, 136, 32, 199, 92]

/-- Fold value c(23). -/
def chainLit23 : Bytes := [243, 19, 51, 40, 59, 67, 180, 139, 130, 17, 197, 149, 251, 33, 3, 192, 152, 107, 236, 219, 173, 62, 155, 220, 4, 4, 142, 177, 46, 83, 183, 165]

/-- Fold value c(24). -/
def chainLit24 : Bytes := [129, 185, 175, 74, 21, 216, 22, 133, 101, 75, 23, 118, 142, 61, 118, 59, 139, 131, 254, 80, 124, 234, 182, 169, 108, 163, 193, 152, 216, 6, 233, 207]

/-- Fold value c(25). -/
def chainLit25 : Bytes := [5, 116, 132, 55, 247, 69, 163, 4, 157, 230, 7, 3, 172, 28, 207, 49, 165, 231, 169, 47, 17, 194, 94, 197, 137, 6, 2, 68, 245, 15, 144, 173]

/-- Fold value c(26). -/
def chainLit26 : Bytes := [95, 40, 238, 51, 130, 74, 104, 5, 164, 223, 246, 203, 189, 83, 2, 114, 51, 76, 50, 96, 97, 47, 92, 72, 57, 222, 28, 223, 204, 222, 210, 20]

/-- Fold value c(27). -/
def chainLit27 : Bytes := [200, 113, 65, 237, 95, 194, 3, 97, 6, 75, 30, 5, 168, 109, 252, 234, 59, 113, 75, 8, 53, 235, 64, 194, 194, 14, 205, 224, 105, 150, 183, 95]

/-- Fold value c(28). -/
def chainLit28 : Bytes := [172, 246, 196, 215, 133, 62, 173, 198, 255, 145, 56, 75, 56, 80, 209, 87, 189, 186, 240, 246, 201, 196, 174, 141, 115, 131, 165, 82, 10, 126, 210, 237]

/-- Fold value c(29). -/
def chainLit29 : Bytes := [207, 214, 162, 127, 10, 46, 109, 244, 16, 44, 111, 251, 150, 20, 132, 10, 135, 148, 27, 58, 102, 0, 60, 195, 6, 171, 145, 152, 132, 229, 167, 138]

/-- Fold value c(30). -/
def chainLit30 : Bytes := [102, 165, 146, 183, 14, 85, 191, 167, 108, 227, 63, 35, 43, 252, 86, 88, 83, 204, 87, 6, 176, 137, 160, 48, 250, 57, 61, 134, 43, 78, 172, 70]

/-- Fold value c(31). -/
def chainLit31 : Bytes := [232, 103, 124, 120, 54, 143, 176, 96, 69, 79, 28, 97, 196, 235, 38, 68, 117, 6, 63, 235, 207, 208, 36, 230, 218, 202, 80, 33, 251, 14, 78, 227]

/-- Fold value c(32). -/
def chainLit32 : Bytes := [181, 130, 18, 19, 50, 143, 251, 41, 129, 136, 219, 158, 39, 18, 181, 78, 170, 121, 208, 19, 34, 163, 126, 143, 67, 81, 68, 119, 247, 105, 205, 98]

/-- Fold value c(33). -/
def chainLit33 : Bytes := [94, 103, 206, 192, 151, 138, 133, 66, 225, 154, 142, 174, 61, 126, 13, 66, 24, 154, 69, 232, 122, 37, 237, 87, 29, 130, 140, 13, 107, 68, 58, 251]

/-! ## Arithmetic helpers -/

theorem div_pow_succ (n L : Nat) : n / 2 ^ L / 2 = n / 2 ^ (L + 1) := by
  rw [Nat.div_div_eq_div_mul, pow_succ]

theorem two_mul_div_two_of_even {j : Nat} (h : j % 2 = 0) : 2 * (j / 2) = j := by
  have := Nat.div_add_mod j 2; omega

theorem two_mul_div_two_of_odd {j : Nat} (h : j % 2 = 1) : 2 * (j / 2) = j - 1 := by
  have := Nat.div_add_mod j 2; omega

theorem lt_div_succ_mul (n k : Nat) (hk : 0 < k) : n < (n / k + 1) * k := by
  have h1 : n = k * (n / k) + n % k := (Nat.div_add_mod n k).symm
  have h2 : n % k < k := Nat.mod_lt n hk
  calc n = k * (n / k) + n % k := h1
    _ < k * (n / k) + k := by omega
    _ = (n / k + 1) * k := by ring

theorem pred_div_eq {n k : Nat} (hk : 0 < k) (h : n % k ≠ 0) : (n - 1) / k = n / k := by
  have h1 : n = k * (n / k) + n % k := (Nat.div_add_mod n k).symm
  have h2 : n % k < k := Nat.mod_lt n hk
  have h3 : n - 1 = k * (n / k) + (n % k - 1) := by omega
  rw [h3, Nat.mul_add_div hk]
  have h4 : (n % k - 1) / k = 0 := Nat.div_eq_of_lt (by omega)
  omega

theorem mod_pow_succ_ne_zero_of_odd_path {n L : Nat} (h : n / 2 ^ L % 2 = 1) :
    n % 2 ^ (L + 1) ≠ 0 := by
  intro hmod
  obtain ⟨m, hm⟩ := Nat.dvd_of_mod_eq_zero hmod
  have h2 : n / 2 ^ L = 2 * m := by
    rw [hm, pow_succ]
    rw [show 2 ^ L * 2 * m = 2 ^ L * (2 * m) by ring]
    exact Nat.mul_div_cancel_left _ (Nat.pos_pow_of_pos L (by omega))
  rw [h2] at h
  omega

/-! ## Reference-node lemmas -/

theorem refNode_zero_of_le (ls : List Bytes) :
    ∀ (L k : Nat), ls.length ≤ k * 2 ^ L → refNode ls L k = zeros L := by
  intro L
  induction L with
  | zero =>
    intro k h
    rw [refNode]
    exact List.getD_eq_default _ _ (by simpa using h)
  | succ L ih =>
    intro k h
    have hl : ls.length ≤ 2 * k * 2 ^ L := by
      calc ls.length ≤ k * 2 ^ (L + 1) := h
        _ = 2 * k * 2 ^ L := by ring
    have hr : ls.length ≤ (2 * k + 1) * 2 ^ L := by
      calc ls.length ≤ 2 * k * 2 ^ L := hl
        _ ≤ (2 * k + 1) * 2 ^ L := Nat.mul_le_mul_right _ (by omega)
    rw [refNode, ih (2 * k) hl, ih (2 * k + 1) hr]
    rfl

theorem refNode_append (ls ext : List Bytes) :
    ∀ (L k : Nat), (k + 1) * 2 ^ L ≤ ls.length → refNode (ls ++ ext) L k = refNode ls L k := by
  intro L
  induction L with
  | zero =>
    intro k h
    rw [refNode, refNode]
    exact List.getD_append _ _ _ _ (by simpa using h)
  | succ L ih =>
    intro k h
    have hr : (2 * k + 1 + 1) * 2 ^ L ≤ ls.length := by
      calc (2 * k + 1 + 1) * 2 ^ L = (k + 1) * 2 ^ (L + 1) := by ring
        _ ≤ ls.length := h
    have hl : (2 * k + 1) * 2 ^ L ≤ ls.length := by
      calc (2 * k + 1) * 2 ^ L ≤ (2 * k + 1 + 1) * 2 ^ L := Nat.mul_le_mul_right _ (by omega)
        _ ≤ ls.length := hr
    rw [refNode, refNode, ih (2 * k) hl, ih (2 * k + 1) hr]

theorem refNode_concat_last (ls : List Bytes) (x : Bytes) :
    refNode (ls ++ [x]) 0 ls.length = x := by
  rw [refNode, List.getD_append_right _ _ _ _ (Nat.le_refl _), Nat.sub_self]
  rfl

/-! ## Level-rebuilding lemmas -/

theorem buildNext_getD (level : Nat) :
    ∀ (xs : List Bytes) (k : Nat),
      (buildNext level xs).getD k (zeros (level + 1)) =
        hash_pair (xs.getD (2 * k) (zeros level)) (xs.getD (2 * k + 1) (zeros level))
  | [], k => by
    rw [buildNext, List.getD_nil, List.getD_nil, List.getD_nil]
    rfl
  | [x], 0 => by
    rw [buildNext]
    rfl
  | [x], k + 1 => by
    rw [buildNext]
    have h1 : ([hash_pair x (zeros level)]).getD (k + 1) (zeros (level + 1)) = zeros (level + 1) :=
      List.getD_eq_default _ _ (by simp)
    have h2 : ([x]).getD (2 * (k + 1)) (zeros level) = zeros level :=
      List.getD_eq_default _ _ (by simp only [List.length_singleton]; omega)
    have h3 : ([x]).getD (2 * (k + 1) + 1) (zeros level) = zeros level :=
      List.getD_eq_default _ _ (by simp only [List.length_singleton]; omega)
    rw [h1, h2, h3]
    rfl
  | x :: y :: rest, 0 => by
    rw [buildNext]
    rfl
  | x :: y :: rest, k + 1 => by
    rw [buildNext]
    have h1 : (hash_pair x y :: buildNext level rest).getD (k + 1) (zeros (level + 1)) =
        (buildNext level rest).getD k (zeros (level + 1)) := rfl
    have h2 : (x :: y :: rest).getD (2 * (k + 1)) (zeros level) =
        rest.getD (2 * k) (zeros level) := by
      rw [show 2 * (k + 1) = 2 * k + 1 + 1 by ring]
      rfl
    have h3 : (x :: y :: rest).getD (2 * (k + 1) + 1) (zeros level) =
        rest.getD (2 * k + 1) (zeros level) := by
      rw [show 2 * (k + 1) + 1 = (2 * k + 1) + 1 + 1 by ring]
      rfl
    rw [h1, h2, h3]
    exact buildNext_getD level rest k

theorem levels_getD (ls : List Bytes) :
    ∀ (L k : Nat), (levels ls L).getD k (zeros L) = refNode ls L k := by
  intro L
  induction L with
  | zero => intro k; rfl
  | succ L ih =>
    intro k
    rw [levels, buildNext_getD, ih, ih, refNode]

theorem buildNext_length_ge (level : Nat) :
    ∀ xs : List Bytes, xs.length ≤ 2 * (buildNext level xs).length
  | [] => by simp [buildNext]
  | [x] => by simp [buildNext]
  | x :: y :: rest => by
    have h := buildNext_length_ge level rest
    simp only [buildNext, List.length_cons]
    omega

theorem length_le_levels (ls : List Bytes) :
    ∀ M : Nat, ls.length ≤ 2 ^ M * (levels ls M).length := by
  intro M
  induction M with
  | zero => simp [levels]
  | succ M ih =>
    have h := buildNext_length_ge M (levels ls M)
    calc ls.length ≤ 2 ^ M * (levels ls M).length := ih
      _ ≤ 2 ^ M * (2 * (buildNext M (levels ls M)).length) :=
        Nat.mul_le_mul_left _ h
      _ = 2 ^ (M + 1) * (levels ls (M + 1)).length := by rw [levels]; ring

/-! ## The incremental push invariant and the root theorem -/

theorem tree_height_eq : TREE_HEIGHT = 32 := rfl

theorem pushLoop_spec (ls : List Bytes) (x : Bytes) :
    ∀ (fuel level : Nat) (fs : Nat → Bytes) (c : Bytes),
      level + fuel ≤ 32 →
      c = refNode (ls ++ [x]) level (ls.length / 2 ^ level) →
      (∀ L, level ≤ L → L < 32 →
        fs L = refNode ls L (2 * ((ls.length - 1) / 2 ^ (L + 1)))) →
      (∀ L, level ≤ L → L < level + fuel →
        pushLoop level fuel fs c (ls.length / 2 ^ level) L =
          refNode (ls ++ [x]) L (2 * (ls.length / 2 ^ (L + 1)))) ∧
      (∀ L, L < level ∨ level + fuel ≤ L →
        pushLoop level fuel fs c (ls.length / 2 ^ level) L = fs L) := by
  intro fuel
  induction fuel with
  | zero =>
    intro level fs c _ _ _
    exact ⟨fun L h1 h2 => absurd h2 (by omega), fun L _ => rfl⟩
  | succ fuel ih =>
    intro level fs c hb hc hfs
    have hlev : level < 32 := by omega
    have hm : ls.length / 2 ^ level / 2 = ls.length / 2 ^ (level + 1) := div_pow_succ _ _
    rw [pushLoop]
    rcases Nat.mod_two_eq_zero_or_one (ls.length / 2 ^ level) with hpar | hpar
    · -- even position: record c, continue with the zero sibling on the right
      rw [if_pos hpar]
      have h2m : 2 * (ls.length / 2 ^ (level + 1)) = ls.length / 2 ^ level := by
        rw [← hm]; exact two_mul_div_two_of_even hpar
      have hsib : refNode (ls ++ [x]) level (ls.length / 2 ^ level + 1) = zeros level := by
        apply refNode_zero_of_le
        have h := lt_div_succ_mul ls.length (2 ^ level) (Nat.pos_pow_of_pos _ (by omega))
        simp only [List.length_append, List.length_singleton]
        omega
      have hc1 : hash_pair c (zeros level) =
          refNode (ls ++ [x]) (level + 1) (ls.length / 2 ^ (level + 1)) := by
        rw [refNode, h2m, hsib, hc]
      have hfs1 : ∀ L, level + 1 ≤ L → L < 32 →
          (fun l => if l = level then c else fs l) L =
            refNode ls L (2 * ((ls.length - 1) / 2 ^ (L + 1))) := by
        intro L h1 h2
        simp only
        rw [if_neg (by omega)]
        exact hfs L (by omega) h2
      have hrec := ih (level + 1) (fun l => if l = level then c else fs l)
        (hash_pair c (zeros level)) (by omega) hc1 hfs1
      rw [← hm] at hrec
      constructor
      · intro L hL1 hL2
        rcases Nat.eq_or_lt_of_le hL1 with hL | hL
        · subst hL
          rw [hrec.2 level (Or.inl (by omega))]
          have hbeta : (fun l => if l = level then c else fs l) level = c := if_pos rfl
          rw [hbeta, hc, h2m]
        · rw [hrec.1 L (by omega) (by omega)]
      · intro L hL
        rw [hrec.2 L (by omega)]
        have hbeta : (fun l => if l = level then c else fs l) L = fs L := if_neg (by omega)
        rw [hbeta]
    · -- odd position: hash the filled subtree on the left, cache untouched
      rw [if_neg (by omega)]
      have hipos : 1 ≤ ls.length / 2 ^ level :=
        Nat.pos_of_ne_zero (fun h0 => by rw [h0] at hpar; simp at hpar)
      have hmod : ls.length % 2 ^ (level + 1) ≠ 0 := mod_pow_succ_ne_zero_of_odd_path hpar
      have hpred : (ls.length - 1) / 2 ^ (level + 1) = ls.length / 2 ^ (level + 1) :=
        pred_div_eq (Nat.pos_pow_of_pos _ (by omega)) hmod
      have h2m : 2 * (ls.length / 2 ^ (level + 1)) = ls.length / 2 ^ level - 1 := by
        rw [← hm]; exact two_mul_div_two_of_odd hpar
      have h2m1 : 2 * (ls.length / 2 ^ (level + 1)) + 1 = ls.length / 2 ^ level := by omega
      have hstable : refNode (ls ++ [x]) level (ls.length / 2 ^ level - 1) =
          refNode ls level (ls.length / 2 ^ level - 1) := by
        apply refNode_append
        rw [show ls.length / 2 ^ level - 1 + 1 = ls.length / 2 ^ level by omega]
        exact Nat.div_mul_le_self _ _
      have hfsl : fs level = refNode (ls ++ [x]) level (ls.length / 2 ^ level - 1) := by
        rw [hfs level (by omega) hlev, hpred, h2m, hstable]
      have hc1 : hash_pair (fs level) c =
          refNode (ls ++ [x]) (level + 1) (ls.length / 2 ^ (level + 1)) := by
        rw [refNode, h2m1, h2m, hfsl, hc]
      have hrec := ih (level + 1) fs (hash_pair (fs level) c) (by omega) hc1
        (fun L h1 h2 => hfs L (by omega) h2)
      rw [← hm] at hrec
      constructor
      · intro L hL1 hL2
        rcases Nat.eq_or_lt_of_le hL1 with hL | hL
        · subst hL
          rw [hrec.2 level (Or.inl (by omega)), hfsl, h2m]
        · rw [hrec.1 L (by omega) (by omega)]
      · intro L hL
        exact hrec.2 L (by omega)

theorem pushAll_append (ls : List Bytes) (x : Bytes) :
    pushAll (ls ++ [x]) = (pushAll ls).push_leaf x := by
  rw [pushAll, pushAll, List.foldl_append, List.foldl_cons, List.foldl_nil]

theorem pushAll_inv (ls : List Bytes) :
    (pushAll ls).leaves = ls ∧ (pushAll ls).next_index = ls.length ∧
      ∀ L, L < 32 →
        (pushAll ls).filled_subtrees L = refNode ls L (2 * ((ls.length - 1) / 2 ^ (L + 1))) := by
  induction ls using List.reverseRecOn with
  | nil =>
    refine ⟨rfl, rfl, fun L _ => ?_⟩
    have h : refNode ([] : List Bytes) L (2 * ((List.length ([] : List Bytes) - 1) / 2 ^ (L + 1)))
        = zeros L := refNode_zero_of_le _ _ _ (by simp)
    rw [h]
    rfl
  | append_singleton ls x ih =>
    obtain ⟨h1, h2, h3⟩ := ih
    rw [pushAll_append]
    refine ⟨by rw [MerkleTree.push_leaf, h1], by simp [MerkleTree.push_leaf, h2], ?_⟩
    intro L hL
    have hc : x = refNode (ls ++ [x]) 0 (ls.length / 2 ^ 0) := by
      rw [pow_zero, Nat.div_one, (refNode_concat_last ls x)]
    have hspec := pushLoop_spec ls x 32 0 (pushAll ls).filled_subtrees x (by omega) hc
      (fun L h1 h2 => h3 L h2)
    have h0 : ls.length / 2 ^ 0 = ls.length := by rw [pow_zero, Nat.div_one]
    rw [h0] at hspec
    rw [MerkleTree.push_leaf]
    simp only
    rw [h2, tree_height_eq]
    simp only [List.length_append, List.length_singleton]
    rw [Nat.add_sub_cancel]
    exact hspec.1 L (by omega) hL

theorem rootLoop_spec (ls : List Bytes) (idx : Nat) (hlen : ls.length = idx + 1) :
    ∀ (fuel level : Nat) (fs : Nat → Bytes) (c : Bytes),
      level + fuel ≤ 32 →
      c = refNode ls level (idx / 2 ^ level) →
      (∀ L, level ≤ L → L < 32 → fs L = refNode ls L (2 * (idx / 2 ^ (L + 1)))) →
      rootLoop level fuel fs c (idx / 2 ^ level) =
        refNode ls (level + fuel) (idx / 2 ^ (level + fuel)) := by
  intro fuel
  induction fuel with
  | zero =>
    intro level fs c _ hc _
    rw [rootLoop, Nat.add_zero, ← hc]
  | succ fuel ih =>
    intro level fs c hb hc hfs
    have hlev : level < 32 := by omega
    have hm : idx / 2 ^ level / 2 = idx / 2 ^ (level + 1) := div_pow_succ _ _
    rw [rootLoop]
    rcases Nat.mod_two_eq_zero_or_one (idx / 2 ^ level) with hpar | hpar
    · rw [if_pos hpar]
      have h2m : 2 * (idx / 2 ^ (level + 1)) = idx / 2 ^ level := by
        rw [← hm]; exact two_mul_div_two_of_even hpar
      have hsib : refNode ls level (idx / 2 ^ level + 1) = zeros level := by
        apply refNode_zero_of_le
        have h := lt_div_succ_mul idx (2 ^ level) (Nat.pos_pow_of_pos _ (by omega))
        omega
      have hc1 : hash_pair c (zeros level) = refNode ls (level + 1) (idx / 2 ^ (level + 1)) := by
        rw [refNode, h2m, hsib, hc]
      have hrec := ih (level + 1) fs (hash_pair c (zeros level)) (by omega) hc1
        (fun L hL1 hL2 => hfs L (by omega) hL2)
      rw [← hm] at hrec
      rw [hrec, show level + 1 + fuel = level + (fuel + 1) by omega]
    · rw [if_neg (by omega)]
      have hipos : 1 ≤ idx / 2 ^ level :=
        Nat.pos_of_ne_zero (fun h0 => by rw [h0] at hpar; simp at hpar)
      have h2m : 2 * (idx / 2 ^ (level + 1)) = idx / 2 ^ level - 1 := by
        rw [← hm]; exact two_mul_div_two_of_odd hpar
      have h2m1 : 2 * (idx / 2 ^ (level + 1)) + 1 = idx / 2 ^ level := by omega
      have hfsl : fs level = refNode ls level (idx / 2 ^ level - 1) := by
        rw [hfs level (by omega) hlev, h2m]
      have hc1 : hash_pair (fs level) c = refNode ls (level + 1) (idx / 2 ^ (level + 1)) := by
        rw [refNode, h2m1, h2m, hfsl, hc]
      have hrec := ih (level + 1) fs (hash_pair (fs level) c) (by omega) hc1
        (fun L hL1 hL2 => hfs L (by omega) hL2)
      rw [← hm] at hrec
      rw [hrec, show level + 1 + fuel = level + (fuel + 1) by omega]

theorem root_pushAll (ls : List Bytes) (hne : ls ≠ []) (hlen : ls.length ≤ 2 ^ 32) :
    (pushAll ls).root = refRoot ls := by
  obtain ⟨h1, h2, h3⟩ := pushAll_inv ls
  have hn : 1 ≤ ls.length := by
    cases ls with
    | nil => exact absurd rfl hne
    | cons a as => simp
  have hldef : ls.length = (ls.length - 1) + 1 := by omega
  have hstart : (pushAll ls).leaves.getD ((pushAll ls).leaves.length - 1) (zeros 0) =
      refNode ls 0 ((ls.length - 1) / 2 ^ 0) := by
    rw [h1, pow_zero, Nat.div_one, refNode]
  have hspec := rootLoop_spec ls (ls.length - 1) (by omega) 32 0
    (pushAll ls).filled_subtrees
    ((pushAll ls).leaves.getD ((pushAll ls).leaves.length - 1) (zeros 0))
    (by omega) (by rw [hstart]) (fun L hL1 hL2 => h3 L hL2)
  rw [MerkleTree.root, if_neg (by rw [h1]; simp [List.isEmpty_iff, hne])]
  rw [tree_height_eq, h2]
  have h0 : (ls.length - 1) / 2 ^ 0 = ls.length - 1 := by rw [pow_zero, Nat.div_one]
  rw [h0] at hspec
  rw [hspec]
  rw [refRoot, tree_height_eq]
  have hzero : (ls.length - 1) / 2 ^ (0 + 32) = 0 :=
    Nat.div_eq_of_lt (by have := Nat.pow_le_pow_right (show 1 ≤ 2 by omega) (show 32 ≤ 32 by omega); omega)
  rw [hzero]

/-! ## Proof-generation lemmas -/

theorem proveLoop_spec (ls : List Bytes) (i : Nat) :
    ∀ (fuel level : Nat) (sibs : List Bytes),
      sibs.length = level →
      level + fuel = 32 →
      level ≤ (proveLoop level fuel (levels ls level) (i / 2 ^ level) sibs).length ∧
      (proveLoop level fuel (levels ls level) (i / 2 ^ level) sibs).length ≤ 32 ∧
      (∀ j, j < level →
        (proveLoop level fuel (levels ls level) (i / 2 ^ level) sibs).getD j (zeros 0) =
          sibs.getD j (zeros 0)) ∧
      (∀ j, level ≤ j →
        j < (proveLoop level fuel (levels ls level) (i / 2 ^ level) sibs).length →
        (proveLoop level fuel (levels ls level) (i / 2 ^ level) sibs).getD j (zeros 0) =
          refNode ls j (proofSibIndex i j)) ∧
      ((proveLoop level fuel (levels ls level) (i / 2 ^ level) sibs).length < 32 →
        ls.length ≤ 2 ^ (proveLoop level fuel (levels ls level) (i / 2 ^ level) sibs).length) := by
  intro fuel
  induction fuel with
  | zero =>
    intro level sibs hsl hlf
    rw [proveLoop]
    exact ⟨by omega, by omega, fun j hj => rfl, fun j h1 h2 => by omega, by omega⟩
  | succ fuel ih =>
    intro level sibs hsl hlf
    have hm : i / 2 ^ level / 2 = i / 2 ^ (level + 1) := div_pow_succ _ _
    have hsx : (if i / 2 ^ level % 2 = 0 then i / 2 ^ level + 1 else i / 2 ^ level - 1) =
        proofSibIndex i level := rfl
    have hentry : (levels ls level).getD
        (if i / 2 ^ level % 2 = 0 then i / 2 ^ level + 1 else i / 2 ^ level - 1) (zeros level) =
        refNode ls level (proofSibIndex i level) := by
      rw [hsx, levels_getD]
    have hlen2 : (sibs ++ [(levels ls level).getD
        (if i / 2 ^ level % 2 = 0 then i / 2 ^ level + 1 else i / 2 ^ level - 1)
        (zeros level)]).length = level + 1 := by
      simp [hsl]
    simp only [proveLoop]
    by_cases hbr : (buildNext level (levels ls level)).length ≤ 1
    · rw [if_pos ⟨hbr, by omega⟩]
      refine ⟨by omega, by omega, ?_, ?_, ?_⟩
      · intro j hj
        exact List.getD_append _ _ _ _ (by omega)
      · intro j h1 h2
        have hj : j = level := by omega
        subst hj
        rw [List.getD_append_right _ _ _ _ (by omega), hsl, Nat.sub_self,
          List.getD_cons_zero]
        exact hentry
      · intro hsmall
        have hlev := length_le_levels ls (level + 1)
        rw [levels] at hlev
        rw [hlen2]
        calc ls.length ≤ 2 ^ (level + 1) * (buildNext level (levels ls level)).length := hlev
          _ ≤ 2 ^ (level + 1) * 1 := Nat.mul_le_mul_left _ hbr
          _ = 2 ^ (level + 1) := Nat.mul_one _
    · rw [if_neg (fun hand => hbr hand.1)]
      rw [hm]
      have hrec := ih (level + 1)
        (sibs ++ [(levels ls level).getD
          (if i / 2 ^ level % 2 = 0 then i / 2 ^ level + 1 else i / 2 ^ level - 1)
          (zeros level)])
        hlen2 (by omega)
      rw [show levels ls (level + 1) = buildNext level (levels ls level) from rfl] at hrec
      obtain ⟨p1, p2, p3, p4, p5⟩ := hrec
      refine ⟨by omega, p2, ?_, ?_, p5⟩
      · intro j hj
        rw [p3 j (by omega)]
        exact List.getD_append _ _ _ _ (by omega)
      · intro j h1 h2
        rcases Nat.eq_or_lt_of_le h1 with hj | hj
        · subst hj
          rw [p3 level (by omega), List.getD_append_right _ _ _ _ (by omega), hsl,
            Nat.sub_self, List.getD_cons_zero]
          exact hentry
        · exact p4 j (by omega) h2

theorem padLoop_spec :
    ∀ (fuel : Nat) (sibs : List Bytes),
      32 ≤ sibs.length + fuel →
      (padLoop fuel sibs).length = max sibs.length 32 ∧
      (∀ j, j < sibs.length → (padLoop fuel sibs).getD j (zeros 0) = sibs.getD j (zeros 0)) ∧
      (∀ j, sibs.length ≤ j → j < 32 → (padLoop fuel sibs).getD j (zeros 0) = zeros j) := by
  intro fuel
  induction fuel with
  | zero =>
    intro sibs h
    rw [padLoop]
    exact ⟨by omega, fun j hj => rfl, fun j h1 h2 => by omega⟩
  | succ fuel ih =>
    intro sibs h
    rw [padLoop, tree_height_eq]
    by_cases hlt : sibs.length < 32
    · rw [if_pos hlt]
      have hrec := ih (sibs ++ [zeros sibs.length]) (by simp; omega)
      obtain ⟨p1, p2, p3⟩ := hrec
      refine ⟨?_, ?_, ?_⟩
      · rw [p1]; simp; omega
      · intro j hj
        rw [p2 j (by simp; omega)]
        exact List.getD_append _ _ _ _ (by omega)
      · intro j h1 h2
        rcases Nat.eq_or_lt_of_le h1 with hj | hj
        · subst hj
          rw [p2 sibs.length (by simp)]
          rw [List.getD_append_right _ _ _ _ (by omega), Nat.sub_self, List.getD_cons_zero]
        · rw [p3 j (by simp; omega) h2]
    · rw [if_neg hlt]
      exact ⟨by omega, fun j hj => rfl, fun j h1 h2 => by omega⟩

theorem refNode_sib_zeros (ls : List Bytes) (i L : Nat) (hi : i < ls.length)
    (hlen : ls.length ≤ 2 ^ L) : refNode ls L (proofSibIndex i L) = zeros L := by
  have h0 : i / 2 ^ L = 0 := Nat.div_eq_of_lt (by omega)
  rw [proofSibIndex, h0]
  rw [if_pos (by omega)]
  exact refNode_zero_of_le _ _ _ (by omega)

theorem prove_siblings_spec (ls : List Bytes) (i : Nat) (hi : i < ls.length) :
    (padLoop TREE_HEIGHT (proveLoop 0 TREE_HEIGHT ls i [])).length = 32 ∧
    ∀ L, L < 32 →
      (padLoop TREE_HEIGHT (proveLoop 0 TREE_HEIGHT ls i [])).getD L (zeros 0) =
        refNode ls L (proofSibIndex i L) := by
  have h0 : i / 2 ^ 0 = i := by rw [pow_zero, Nat.div_one]
  have hloop := proveLoop_spec ls i 32 0 [] rfl rfl
  rw [show levels ls 0 = ls from rfl, h0] at hloop
  obtain ⟨q1, q2, q3, q4, q5⟩ := hloop
  rw [tree_height_eq]
  have hpad := padLoop_spec 32 (proveLoop 0 32 ls i []) (by omega)
  obtain ⟨p1, p2, p3⟩ := hpad
  refine ⟨by omega, ?_⟩
  intro L hL
  by_cases hin : L < (proveLoop 0 32 ls i []).length
  · rw [p2 L hin]
    exact q4 L (by omega) hin
  · rw [p3 L (by omega) hL]
    have hsmall : (proveLoop 0 32 ls i []).length < 32 := by omega
    have hls : ls.length ≤ 2 ^ L := by
      calc ls.length ≤ 2 ^ (proveLoop 0 32 ls i []).length := q5 hsmall
        _ ≤ 2 ^ L := Nat.pow_le_pow_right (by omega) (by omega)
    exact (refNode_sib_zeros ls i L hi hls).symm

/-! ## Verification-fold lemmas -/

theorem verifyFold_no_exit :
    ∀ (sibs : List Bytes) (level : Nat) (c : Bytes) (i : Nat),
      level + sibs.length ≤ 32 →
      verifyFold level c i sibs = verifyAllSiblings c i sibs := by
  intro sibs
  induction sibs with
  | nil => intro level c i _; rfl
  | cons s rest ih =>
    intro level c i hb
    rw [verifyFold, verifyAllSiblings]
    simp only [tree_height_eq]
    by_cases hl : level ≥ 32 - 1
    · rw [if_pos hl]
      have hrest : rest = [] := by
        have : rest.length = 0 := by simp at hb; omega
        exact List.length_eq_zero.mp this
      subst hrest
      rfl
    · rw [if_neg hl]
      exact ih (level + 1) _ (i / 2) (by simp at hb ⊢; omega)

theorem verifyAllSiblings_spec (ls : List Bytes) (i0 : Nat) :
    ∀ (sibs : List Bytes) (level : Nat),
      (∀ j, j < sibs.length →
        sibs.getD j (zeros 0) = refNode ls (level + j) (proofSibIndex i0 (level + j))) →
      verifyAllSiblings (refNode ls level (i0 / 2 ^ level)) (i0 / 2 ^ level) sibs =
        refNode ls (level + sibs.length) (i0 / 2 ^ (level + sibs.length)) := by
  intro sibs
  induction sibs with
  | nil => intro level _; rw [verifyAllSiblings]; rfl
  | cons s rest ih =>
    intro level hsib
    have hs : s = refNode ls level (proofSibIndex i0 level) := by
      have h := hsib 0 (by simp)
      simpa using h
    have hm : i0 / 2 ^ level / 2 = i0 / 2 ^ (level + 1) := div_pow_succ _ _
    rw [verifyAllSiblings]
    rcases Nat.mod_two_eq_zero_or_one (i0 / 2 ^ level) with hpar | hpar
    · rw [if_pos hpar]
      have h2m : 2 * (i0 / 2 ^ (level + 1)) = i0 / 2 ^ level := by
        rw [← hm]; exact two_mul_div_two_of_even hpar
      have hsx : proofSibIndex i0 level = i0 / 2 ^ level + 1 := by
        rw [proofSibIndex, if_pos hpar]
      have hc1 : hash_pair (refNode ls level (i0 / 2 ^ level)) s =
          refNode ls (level + 1) (i0 / 2 ^ (level + 1)) := by
        rw [refNode, h2m, hs, hsx]
      rw [hc1, hm]
      have := ih (level + 1) (fun j hj => by
        have h := hsib (j + 1) (by simp; omega)
        rw [show level + 1 + j = level + (j + 1) by omega]
        simpa using h)
      rw [this, show level + 1 + rest.length = level + (rest.length + 1) by omega,
        show (s :: rest).length = rest.length + 1 from rfl]
    · rw [if_neg (by omega)]
      have hipos : 1 ≤ i0 / 2 ^ level :=
        Nat.pos_of_ne_zero (fun h0 => by rw [h0] at hpar; simp at hpar)
      have h2m : 2 * (i0 / 2 ^ (level + 1)) = i0 / 2 ^ level - 1 := by
        rw [← hm]; exact two_mul_div_two_of_odd hpar
      have h2m1 : 2 * (i0 / 2 ^ (level + 1)) + 1 = i0 / 2 ^ level := by omega
      have hsx : proofSibIndex i0 level = i0 / 2 ^ level - 1 := by
        rw [proofSibIndex, if_neg (by omega)]
      have hc1 : hash_pair s (refNode ls level (i0 / 2 ^ level)) =
          refNode ls (level + 1) (i0 / 2 ^ (level + 1)) := by
        rw [refNode, h2m1, h2m, hs, hsx]
      rw [hc1, hm]
      have := ih (level + 1) (fun j hj => by
        have h := hsib (j + 1) (by simp; omega)
        rw [show level + 1 + j = level + (j + 1) by omega]
        simpa using h)
      rw [this, show level + 1 + rest.length = level + (rest.length + 1) by omega,
        show (s :: rest).length = rest.length + 1 from rfl]
/-! Concrete values of the iterated zero-subtree hashes `zeros k`, needed to
separate the empty-tree root from the padded reference root. Each step
evaluates one Keccak-256 application on literal inputs. -/

theorem zerosLit0 : zeros 0 = [0, 0, 0, 0, 0, 0, 0, 0, 0, 0, 0, 0, 0, 0, 0, 0, 0, 0, 0, 0, 0, 0, 0, 0, 0, 0, 0, 0, 0, 0, 0, 0] := by decide

theorem zerosLit1 : zeros 1 = [173, 50, 40, 182, 118, 247, 211, 205, 66, 132, 165, 68, 63, 23, 241, 150, 43, 54, 228, 145, 179, 10, 64, 178, 64, 88, 73, 229, 151, 186, 95, 181] := by
  have h : zeros 1 = hash_pair (zeros 0) (zeros 0) := rfl
  rw [h, zerosLit0]; decide

theorem zerosLit2 : zeros 2 = [180, 193, 25, 81, 149, 124, 111, 143, 100, 44, 74, 246, 28, 214, 178, 70, 64, 254, 198, 220, 127, 198, 7, 238, 130, 6, 169, 158, 146, 65, 13, 48] := by
  have h : zeros 2 = hash_pair (zeros 1) (zeros 1) := rfl
  rw [h, zerosLit1]; decide

theorem zerosLit3 : zeros 3 = [33, 221, 185, 163, 86, 129, 92, 63, 172, 16, 38, 182, 222, 197, 223, 49, 36, 175, 186, 219, 72, 92, 155, 165, 163, 227, 57, 138, 4, 183, 186, 133] := by
  have h : zeros 3 = hash_pair (zeros 2) (zeros 2) := rfl
  rw [h, zerosLit2]; decide

theorem zerosLit4 : zeros 4 = [229, 135, 105, 179, 42, 27, 234, 241, 234, 39, 55, 90, 68, 9, 90, 13, 31, 182, 100, 206, 45, 211, 88, 231, 252, 191, 183, 140, 38, 161, 147, 68] := by
  have h : zeros 4 = hash_pair (zeros 3) (zeros 3) := rfl
  rw [h, zerosLit3]; decide

theorem zerosLit5 : zeros 5 = [14, 176, 30, 191, 201, 237, 39, 80, 12, 212, 223, 201, 121, 39, 45, 31, 9, 19, 204, 159, 102, 84, 13, 126, 128, 5, 129, 17, 9, 225, 207, 45] := by
  have h : zeros 5 = hash_pair (zeros 4) (zeros 4) := rfl
  rw [h, zerosLit4]; decide

theorem zerosLit6 : zeros 6 = [136, 124, 34, 189, 135, 80, 211, 64, 22, 172, 60, 102, 181, 255, 16, 45, 172, 221, 115, 246, 176, 20, 231, 16, 181, 30, 128, 34, 175, 154, 25, 104] := by
  have h : zeros 6 = hash_pair (zeros 5) (zeros 5) := rfl
  rw [h, zerosLit5]; decide

theorem zerosLit7 : zeros 7 = [255, 215, 1, 87, 228, 128, 99, 252, 51, 201, 122, 5, 15, 127, 100, 2, 51, 191, 100, 108, 201, 141, 149, 36, 198, 185, 43, 207, 58, 181, 111, 131] := by
  have h : zeros 7 = hash_pair (zeros 6) (zeros 6) := rfl
  rw [h, zerosLit6]; decide

theorem zerosLit8 : zeros 8 = [152, 103, 204, 95, 127, 25, 107, 147, 186, 225, 226, 126, 99, 32, 116, 36, 69, 210, 144, 242, 38, 56, 39, 73, 139, 84, 254, 197, 57, 247, 86, 175] := by
  have h : zeros 8 = hash_pair (zeros 7) (zeros 7) := rfl
  rw [h, zerosLit7]; decide

theorem zerosLit9 : zeros 9 = [206, 250, 212, 229, 8, 192, 152, 185, 167, 225, 216, 254, 177, 153, 85, 251, 2, 186, 150, 117, 88, 80, 120, 113, 9, 105, 211, 68, 15, 80, 84, 224] := by
  have h : zeros 9 = hash_pair (zeros 8) (zeros 8) := rfl
  rw [h, zerosLit8]; decide

theorem zerosLit10 : zeros 10 = [249, 220, 62, 127, 224, 22, 224, 80, 239, 242, 96, 51, 79, 24, 165, 212, 254, 57, 29, 130, 9, 35, 25, 245, 150, 79, 46, 46, 183, 193, 195, 165] := by
  have h : zeros 10 = hash_pair (zeros 9) (zeros 9) := rfl
  rw [h, zerosLit9]; decide

theorem zerosLit11 : zeros 11 = [248, 177, 58, 73, 226, 130, 246, 9, 195, 23, 168, 51, 251, 141, 151, 109, 17, 81, 124, 87, 29, 18, 33, 162, 101, 210, 90, 247, 120, 236, 248, 146] := by
  have h : zeros 11 = hash_pair (zeros 10) (zeros 10) := rfl
  rw [h, zerosLit10]; decide

theorem zerosLit12 : zeros 12 = [52, 144, 198, 206, 235, 69, 10, 236, 220, 130, 226, 130, 147, 3, 29, 16, 199, 215, 59, 248, 94, 87, 191, 4, 26, 151, 54, 10, 162, 197, 217, 156] := by
  have h : zeros 12 = hash_pair (zeros 11) (zeros 11) := rfl
  rw [h, zerosLit11]; decide

theorem zerosLit13 : zeros 13 = [193, 223, 130, 217, 196, 184, 116, 19, 234, 226, 239, 4, 143, 148, 180, 211, 85, 76, 234, 115, 217, 43, 15, 122, 249, 110, 2, 113, 198, 145, 226, 187] := by
  have h : zeros 13 = hash_pair (zeros 12) (zeros 12) := rfl
  rw [h, zerosLit12]; decide

theorem zerosLit14 : zeros 14 = [92, 103, 173, 215, 198, 202, 243, 2, 37, 106, 222, 223, 122, 177, 20, 218, 10, 207, 232, 112, 212, 73, 163, 164, 137, 247, 129, 214, 89, 232, 190, 204] := by
  have h : zeros 14 = hash_pair (zeros 13) (zeros 13) := rfl
  rw [h, zerosLit13]; decide

theorem zerosLit15 : zeros 15 = [218, 123, 206, 159, 78, 134, 24, 182, 189, 47, 65, 50, 206, 121, 140, 220, 122, 96, 231, 225, 70, 10, 114, 153, 227, 198, 52, 42, 87, 150, 38, 210] := by
  have h : zeros 15 = hash_pair (zeros 14) (zeros 14) := rfl
  rw [h, zerosLit14]; decide

theorem zerosLit16 : zeros 16 = [39, 51, 229, 15, 82, 110, 194, 250, 25, 162, 43, 49, 232, 237, 80, 242, 60, 209, 253, 249, 76, 145, 84, 237, 58, 118, 9, 162, 241, 255, 152, 31] := by
  have h : zeros 16 = hash_pair (zeros 15) (zeros 15) := rfl
  rw [h, zerosLit15]; decide

theorem zerosLit17 : zeros 17 = [225, 211, 181, 200, 7, 178, 129, 228, 104, 60, 198, 214, 49, 92, 249, 91, 154, 222, 134, 65, 222, 252, 179, 35, 114, 241, 193, 38, 227, 152, 239, 122] := by
  have h : zeros 17 = hash_pair (zeros 16) (zeros 16) := rfl
  rw [h, zerosLit16]; decide

theorem zerosLit18 : zeros 18 = [90, 45, 206, 10, 138, 127, 104, 187, 116, 86, 15, 143, 113, 131, 124, 44, 46, 187, 203, 247, 255, 251, 66, 174, 24, 150, 241, 63, 124, 116, 121, 160] := by
  have h : zeros 18 = hash_pair (zeros 17) (zeros 17) := rfl
  rw [h, zerosLit17]; decide

theorem zerosLit19 : zeros 19 = [180, 106, 40, 182, 245, 85, 64, 248, 148, 68, 246, 61, 224, 55, 142, 61, 18, 27, 224, 158, 6, 204, 157, 237, 28, 32, 230, 88, 118, 211, 106, 160] := by
  have h : zeros 19 = hash_pair (zeros 18) (zeros 18) := rfl
  rw [h, zerosLit18]; decide

theorem zerosLit20 : zeros 20 = [198, 94, 150, 69, 100, 71, 134, 182, 32, 226, 221, 42, 214, 72, 221, 252, 191, 74, 126, 91, 26, 58, 78, 207, 231, 246, 70, 103, 163, 240, 183, 226] := by
  have h : zeros 20 = hash_pair (zeros 19) (zeros 19) := rfl
  rw [h, zerosLit19]; decide

theorem zerosLit21 : zeros 21 = [244, 65, 133, 136, 237, 53, 162, 69, 140, 255, 235, 57, 185, 61, 38, 241, 141, 42, 177, 59, 220, 230, 174, 229, 142, 123, 153, 53, 158, 194, 223, 217] := by
  have h : zeros 21 = hash_pair (zeros 20) (zeros 20) := rfl
  rw [h, zerosLit20]; decide

theorem zerosLit22 : zeros 22 = [90, 156, 22, 220, 0, 214, 239, 24, 183, 147, 58, 111, 141, 198, 92, 203, 85, 102, 113, 56, 119, 111, 125, 234, 16, 16, 112, 220, 135, 150, 227, 119] := by
  have h : zeros 22 = hash_pair (zeros 21) (zeros 21) := rfl
  rw [h, zerosLit21]; decide

theorem zerosLit23 : zeros 23 = [77, 248, 79, 64, 174, 12, 130, 41, 208, 214, 6, 158, 92, 143, 57, 167, 194, 153, 103, 122, 9, 211, 103, 252, 123, 5, 227, 188, 56, 14, 230, 82] := by
  have h : zeros 23 = hash_pair (zeros 22) (zeros 22) := rfl
  rw [h, zerosLit22]; decide

theorem zerosLit24 : zeros 24 = [205, 199, 37, 149, 247, 76, 123, 16, 67, 208, 225, 255, 186, 183, 52, 100, 140, 131, 141, 251, 5, 39, 217, 113, 182, 2, 188, 33, 108, 150, 25, 239] := by
  have h : zeros 24 = hash_pair (zeros 23) (zeros 23) := rfl
  rw [h, zerosLit23]; decide

theorem zerosLit25 : zeros 25 = [10, 191, 90, 201, 116, 161, 237, 87, 244, 5, 10, 165, 16, 221, 156, 116, 245, 8, 39, 123, 57, 215, 151, 59, 178, 223, 204, 197, 238, 176, 97, 141] := by
  have h : zeros 25 = hash_pair (zeros 24) (zeros 24) := rfl
  rw [h, zerosLit24]; decide

theorem zerosLit26 : zeros 26 = [184, 205, 116, 4, 111, 243, 55, 240, 167, 191, 44, 142, 3, 225, 15, 100, 44, 24, 134, 121, 141, 113, 128, 106, 177, 232, 136, 217, 229, 238, 135, 208] := by
  have h : zeros 26 = hash_pair (zeros 25) (zeros 25) := rfl
  rw [h, zerosLit25]; decide

theorem zerosLit27 : zeros 27 = [131, 140, 86, 85, 203, 33, 198, 203, 131, 49, 59, 90, 99, 17, 117, 223, 244, 150, 55, 114, 204, 233, 16, 129, 136, 179, 74, 200, 124, 129, 196, 30] := by
  have h : zeros 27 = hash_pair (zeros 26) (zeros 26) := rfl
  rw [h, zerosLit26]; decide

theorem zerosLit28 : zeros 28 = [102, 46, 228, 221, 45, 215, 178, 188, 112, 121, 97, 177, 230, 70, 196, 4, 118, 105, 220, 182, 88, 79, 13, 141, 119, 13, 175, 93, 126, 125, 235, 46] := by
  have h : zeros 28 = hash_pair (zeros 27) (zeros 27) := rfl
  rw [h, zerosLit27]; decide

theorem zerosLit29 : zeros 29 = [56, 138, 178, 14, 37, 115, 209, 113, 168, 129, 8, 231, 157, 130, 14, 152, 242, 108, 11, 132, 170, 139, 47, 74, 164, 150, 141, 187, 129, 142, 163, 34] := by
  have h : zeros 29 = hash_pair (zeros 28) (zeros 28) := rfl
  rw [h, zerosLit28]; decide

theorem zerosLit30 : zeros 30 = [147, 35, 124, 80, 186, 117, 238, 72, 95, 76, 34, 173, 242, 247, 65, 64, 11, 223, 141, 106, 156, 199, 223, 126, 202, 229, 118, 34, 22, 101, 215, 53] := by
  have h : zeros 30 = hash_pair (zeros 29) (zeros 29) := rfl
  rw [h, zerosLit29]; decide

theorem zerosLit31 : zeros 31 = [132, 72, 129, 139, 180, 174, 69, 98, 132, 158, 148, 158, 23, 172, 22, 224, 190, 22, 104, 142, 21, 107, 92, 241, 94, 9, 140, 98, 124, 0, 86, 169] := by
  have h : zeros 31 = hash_pair (zeros 30) (zeros 30) := rfl
  rw [h, zerosLit30]; decide

theorem zerosLit32 : zeros 32 = [39, 174, 91, 160, 141, 114, 145, 201, 108, 140, 189, 220, 193, 72, 191, 72, 166, 214, 140, 121, 116, 185, 67, 86, 245, 55, 84, 239, 97, 113, 215, 87] := by
  have h : zeros 32 = hash_pair (zeros 31) (zeros 31) := rfl
  rw [h, zerosLit31]; decide

/-! ## Claim theorems for the Merkle accumulator -/

/-- C10: the root of the empty Merkle tree is the precomputed zero hash at
level 31 (ZEROS[TREE_HEIGHT - 1] of the height-32 tree). -/
theorem empty_tree_root : MerkleTree.root MerkleTree.new = zeros 31 := rfl

/-- C1 as stated is false at N = 0: for the empty tree, root() returns the
level-31 zero hash, while the reference root obtained by padding the (empty)
leaf list with ZEROS[0] to 2^32 entries and hashing bottom-up over the 32
levels is the level-32 zero hash, and the two digests differ. -/
theorem root_matches_reference_cex : (pushAll []).root ≠ refRoot [] := by
  have h1 : (pushAll []).root = zeros 31 := rfl
  have h2 : refRoot [] = zeros 32 := refNode_zero_of_le [] TREE_HEIGHT 0 (by simp)
  rw [h1, h2, zerosLit31, zerosLit32]
  decide

/-- C1 (amended): for every leaf sequence and every N from 1 up to its length,
with N within the 2^32 capacity of the height-32 tree that the reference
construction pads to, pushing the first N leaves one by one into a fresh tree
makes root() equal the reference root of those N leaves. (The claim's N = 0
case fails; see the counterexample.) -/
theorem root_matches_reference (ls : List Bytes) (N : Nat) (h1 : 1 ≤ N) (h2 : N ≤ ls.length)
    (h3 : N ≤ 2 ^ 32) : (pushAll (ls.take N)).root = refRoot (ls.take N) := by
  have hlen : (ls.take N).length = N := by
    rw [List.length_take]
    omega
  apply root_pushAll
  · exact List.ne_nil_of_length_pos (by omega)
  · omega

/-- Witness for C1: the amended theorem applied to a one-leaf sequence with
N = 1. -/
theorem root_matches_reference_witness :
    (pushAll (List.take 1 [exLeaf])).root = refRoot (List.take 1 [exLeaf]) :=
  root_matches_reference [exLeaf] 1 (by omega) (by decide) (by decide)

/-- C2: for every tree built by pushing a leaf sequence (within the 2^32
capacity) and every index below the leaf count, prove returns a proof that
verify_proof accepts for that leaf against the current root. -/
theorem prove_verify_roundtrip (ls : List Bytes) (i : Nat) (hcap : ls.length ≤ 2 ^ 32)
    (hi : i < (pushAll ls).leaf_count) :
    (MerkleTree.prove (pushAll ls) i).map
      (fun p => MerkleTree.verify_proof ((pushAll ls).leaves.getD i (zeros 0)) p
        (pushAll ls).root) = some true := by
  obtain ⟨hlv, hni, hfs⟩ := pushAll_inv ls
  have hi2 : i < ls.length := by
    rw [MerkleTree.leaf_count, hlv] at hi
    exact hi
  have hps : MerkleTree.prove (pushAll ls) i =
      some ⟨i, padLoop TREE_HEIGHT (proveLoop 0 TREE_HEIGHT ls i [])⟩ := by
    rw [MerkleTree.prove, hlv, if_neg (by omega)]
  obtain ⟨hsl, hsv⟩ := prove_siblings_spec ls i hi2
  have h0 : i / 2 ^ 0 = i := by rw [pow_zero, Nat.div_one]
  have hva := verifyAllSiblings_spec ls i
    (padLoop TREE_HEIGHT (proveLoop 0 TREE_HEIGHT ls i [])) 0
    (fun j hj => by
      rw [Nat.zero_add]
      exact hsv j (by rw [hsl] at hj; omega))
  rw [h0, hsl, Nat.zero_add] at hva
  have hzero : i / 2 ^ 32 = 0 := Nat.div_eq_of_lt (by omega)
  rw [hzero] at hva
  have hleaf : (pushAll ls).leaves.getD i (zeros 0) = refNode ls 0 i := by
    rw [hlv, refNode]
  have hroot : (pushAll ls).root = refNode ls 32 0 := by
    rw [root_pushAll ls (List.ne_nil_of_length_pos (by omega)) hcap, refRoot, tree_height_eq]
  have hfold : verifyFold 0 ((pushAll ls).leaves.getD i (zeros 0)) i
      (padLoop TREE_HEIGHT (proveLoop 0 TREE_HEIGHT ls i [])) = (pushAll ls).root := by
    rw [verifyFold_no_exit _ 0 _ i (by omega), hleaf, hroot, hva]
  rw [hps, Option.map_some']
  exact congrArg some (decide_eq_true hfold)

/-- Witness for C2 at a one-leaf tree and index 0. -/
theorem prove_verify_roundtrip_witness :
    (MerkleTree.prove (pushAll [exLeaf]) 0).map
      (fun p => MerkleTree.verify_proof ((pushAll [exLeaf]).leaves.getD 0 (zeros 0)) p
        (pushAll [exLeaf]).root) = some true :=
  prove_verify_roundtrip [exLeaf] 0 (by decide) (by decide)

/-- C4: prove returns absent exactly when the index reaches the leaf count;
otherwise it returns a proof carrying that leaf index with exactly 32
siblings, whose entry at each level L is the reference sibling of the leaf's
path at level L — in particular the level's zero hash at every level beyond
the materialized ones. -/
theorem prove_shape_spec (t : MerkleTree) (i : Nat) :
    (MerkleTree.prove t i = none ↔ t.leaf_count ≤ i) ∧
    (i < t.leaf_count →
      (MerkleTree.prove t i).map (fun p => (p.leaf_index, p.siblings.length)) = some (i, 32)) ∧
    (∀ L, L < 32 → i < t.leaf_count →
      (MerkleTree.prove t i).map (fun p => p.siblings.getD L (zeros 0)) =
        some (refNode t.leaves L (proofSibIndex i L))) := by
  refine ⟨?_, ?_, ?_⟩
  · constructor
    · intro h
      by_contra hlt
      rw [MerkleTree.prove, if_neg (by rw [MerkleTree.leaf_count] at hlt; omega)] at h
      exact Option.some_ne_none _ h
    · intro h
      rw [MerkleTree.prove, if_pos (by rw [MerkleTree.leaf_count] at h; omega)]
  · intro h
    rw [MerkleTree.leaf_count] at h
    rw [MerkleTree.prove, if_neg (by omega), Option.map_some']
    have hsl := (prove_siblings_spec t.leaves i h).1
    rw [show (⟨i, padLoop TREE_HEIGHT (proveLoop 0 TREE_HEIGHT t.leaves i [])⟩ :
      MerkleProof).leaf_index = i from rfl,
      show (⟨i, padLoop TREE_HEIGHT (proveLoop 0 TREE_HEIGHT t.leaves i [])⟩ :
      MerkleProof).siblings = padLoop TREE_HEIGHT (proveLoop 0 TREE_HEIGHT t.leaves i [])
      from rfl, hsl]
  · intro L hL h
    rw [MerkleTree.leaf_count] at h
    rw [MerkleTree.prove, if_neg (by omega), Option.map_some']
    have hsv := (prove_siblings_spec t.leaves i h).2 L hL
    rw [show (⟨i, padLoop TREE_HEIGHT (proveLoop 0 TREE_HEIGHT t.leaves i [])⟩ :
      MerkleProof).siblings = padLoop TREE_HEIGHT (proveLoop 0 TREE_HEIGHT t.leaves i [])
      from rfl, hsv]

/-- Witness for C4 at a one-leaf tree and index 0. -/
theorem prove_shape_spec_witness :
    (MerkleTree.prove (pushAll [exLeaf]) 0).map (fun p => (p.leaf_index, p.siblings.length)) =
      some (0, 32) :=
  (prove_shape_spec (pushAll [exLeaf]) 0).2.1 (by decide)

/-! ## Evaluation of the verification folds on a 33-sibling all-zero proof

chainStepK evaluates one Keccak-256 application per level; the fold lemmas
then unfold the two fold functions level by level at index 0. -/

theorem zeroLeaf_eq_chainLit0 : zeroLeaf = chainLit0 := by decide

theorem verifyFold_step (level : Nat) (c s : Bytes) (rest : List Bytes)
    (h : ¬ level ≥ TREE_HEIGHT - 1) :
    verifyFold level c 0 (s :: rest) = verifyFold (level + 1) (hash_pair c s) 0 rest := by
  show (if level ≥ TREE_HEIGHT - 1 then (if 0 % 2 = 0 then hash_pair c s else hash_pair s c)
    else verifyFold (level + 1) (if 0 % 2 = 0 then hash_pair c s else hash_pair s c)
      (0 / 2) rest) = verifyFold (level + 1) (hash_pair c s) 0 rest
  rw [if_neg h, if_pos (show (0 : Nat) % 2 = 0 from rfl), Nat.zero_div]

theorem verifyFold_last (level : Nat) (c s : Bytes) (rest : List Bytes)
    (h : level ≥ TREE_HEIGHT - 1) :
    verifyFold level c 0 (s :: rest) = hash_pair c s := by
  show (if level ≥ TREE_HEIGHT - 1 then (if 0 % 2 = 0 then hash_pair c s else hash_pair s c)
    else verifyFold (level + 1) (if 0 % 2 = 0 then hash_pair c s else hash_pair s c)
      (0 / 2) rest) = hash_pair c s
  rw [if_pos h, if_pos (show (0 : Nat) % 2 = 0 from rfl)]

theorem verifyAllSiblings_cons_even (c s : Bytes) (rest : List Bytes) :
    verifyAllSiblings c 0 (s :: rest) = verifyAllSiblings (hash_pair c s) 0 rest := by
  show verifyAllSiblings (if 0 % 2 = 0 then hash_pair c s else hash_pair s c) (0 / 2) rest =
    verifyAllSiblings (hash_pair c s) 0 rest
  rw [if_pos (show (0 : Nat) % 2 = 0 from rfl), Nat.zero_div]

theorem chainStep0 : hash_pair chainLit0 chainLit0 = chainLit1 := by decide

theorem chainStep1 : hash_pair chainLit1 chainLit0 = chainLit2 := by decide

theorem chainStep2 : hash_pair chainLit2 chainLit0 = chainLit3 := by decide

theorem chainStep3 : hash_pair chainLit3 chainLit0 = chainLit4 := by decide

theorem chainStep4 : hash_pair chainLit4 chainLit0 = chainLit5 := by decide

theorem chainStep5 : hash_pair chainLit5 chainLit0 = chainLit6 := by decide

theorem chainStep6 : hash_pair chainLit6 chainLit0 = chainLit7 := by decide

theorem chainStep7 : hash_pair chainLit7 chainLit0 = chainLit8 := by decide

theorem chainStep8 : hash_pair chainLit8 chainLit0 = chainLit9 := by decide

theorem chainStep9 : hash_pair chainLit9 chainLit0 = chainLit10 := by decide

theorem chainStep10 : hash_pair chainLit10 chainLit0 = chainLit11 := by decide

theorem chainStep11 : hash_pair chainLit11 chainLit0 = chainLit12 := by decide

theorem chainStep12 : hash_pair chainLit12 chainLit0 = chainLit13 := by decide

theorem chainStep13 : hash_pair chainLit13 chainLit0 = chainLit14 := by decide

theorem chainStep14 : hash_pair chainLit14 chainLit0 = chainLit15 := by decide

theorem chainStep15 : hash_pair chainLit15 chainLit0 = chainLit16 := by decide

theorem chainStep16 : hash_pair chainLit16 chainLit0 = chainLit17 := by decide

theorem chainStep17 : hash_pair chainLit17 chainLit0 = chainLit18 := by decide

theorem chainStep18 : hash_pair chainLit18 chainLit0 = chainLit19 := by decide

theorem chainStep19 : hash_pair chainLit19 chainLit0 = chainLit20 := by decide

theorem chainStep20 : hash_pair chainLit20 chainLit0 = chainLit21 := by decide

theorem chainStep21 : hash_pair chainLit21 chainLit0 = chainLit22 := by decide

theorem chainStep22 : hash_pair chainLit22 chainLit0 = chainLit23 := by decide

theorem chainStep23 : hash_pair chainLit23 chainLit0 = chainLit24 := by decide

theorem chainStep24 : hash_pair chainLit24 chainLit0 = chainLit25 := by decide

theorem chainStep25 : hash_pair chainLit25 chainLit0 = chainLit26 := by decide

theorem chainStep26 : hash_pair chainLit26 chainLit0 = chainLit27 := by decide

theorem chainStep27 : hash_pair chainLit27 chainLit0 = chainLit28 := by decide

theorem chainStep28 : hash_pair chainLit28 chainLit0 = chainLit29 := by decide

theorem chainStep29 : hash_pair chainLit29 chainLit0 = chainLit30 := by decide

theorem chainStep30 : hash_pair chainLit30 chainLit0 = chainLit31 := by decide

theorem chainStep31 : hash_pair chainLit31 chainLit0 = chainLit32 := by decide

theorem chainStep32 : hash_pair chainLit32 chainLit0 = chainLit33 := by decide

theorem foldChain31 : verifyFold 31 chainLit31 0 (List.replicate 2 chainLit0) = chainLit32 := by
  rw [show List.replicate 2 chainLit0 = chainLit0 :: List.replicate 1 chainLit0 from rfl]
  rw [verifyFold_last 31 chainLit31 chainLit0 _ (by rw [tree_height_eq]; try omega), chainStep31]

theorem foldChain30 : verifyFold 30 chainLit30 0 (List.replicate 3 chainLit0) = chainLit32 := by
  rw [show List.replicate 3 chainLit0 = chainLit0 :: List.replicate 2 chainLit0 from rfl]
  rw [verifyFold_step 30 chainLit30 chainLit0 _ (by rw [tree_height_eq]; try omega), chainStep30]
  exact foldChain31

theorem foldChain29 : verifyFold 29 chainLit29 0 (List.replicate 4 chainLit0) = chainLit32 := by
  rw [show List.replicate 4 chainLit0 = chainLit0 :: List.replicate 3 chainLit0 from rfl]
  rw [verifyFold_step 29 chainLit29 chainLit0 _ (by rw [tree_height_eq]; try omega), chainStep29]
  exact foldChain30

theorem foldChain28 : verifyFold 28 chainLit28 0 (List.replicate 5 chainLit0) = chainLit32 := by
  rw [show List.replicate 5 chainLit0 = chainLit0 :: List.replicate 4 chainLit0 from rfl]
  rw [verifyFold_step 28 chainLit28 chainLit0 _ (by rw [tree_height_eq]; try omega), chainStep28]
  exact foldChain29

theorem foldChain27 : verifyFold 27 chainLit27 0 (List.replicate 6 chainLit0) = chainLit32 := by
  rw [show List.replicate 6 chainLit0 = chainLit0 :: List.replicate 5 chainLit0 from rfl]
  rw [verifyFold_step 27 chainLit27 chainLit0 _ (by rw [tree_height_eq]; try omega), chainStep27]
  exact foldChain28

theorem foldChain26 : verifyFold 26 chainLit26 0 (List.replicate 7 chainLit0) = chainLit32 := by
  rw [show List.replicate 7 chainLit0 = chainLit0 :: List.replicate 6 chainLit0 from rfl]
  rw [verifyFold_step 26 chainLit26 chainLit0 _ (by rw [tree_height_eq]; try omega), chainStep26]
  exact foldChain27

theorem foldChain25 : verifyFold 25 chainLit25 0 (List.replicate 8 chainLit0) = chainLit32 := by
  rw [show List.replicate 8 chainLit0 = chainLit0 :: List.replicate 7 chainLit0 from rfl]
  rw [verifyFold_step 25 chainLit25 chainLit0 _ (by rw [tree_height_eq]; try omega), chainStep25]
  exact foldChain26

theorem foldChain24 : verifyFold 24 chainLit24 0 (List.replicate 9 chainLit0) = chainLit32 := by
  rw [show List.replicate 9 chainLit0 = chainLit0 :: List.replicate 8 chainLit0 from rfl]
  rw [verifyFold_step 24 chainLit24 chainLit0 _ (by rw [tree_height_eq]; try omega), chainStep24]
  exact foldChain25

theorem foldChain23 : verifyFold 23 chainLit23 0 (List.replicate 10 chainLit0) = chainLit32 := by
  rw [show List.replicate 10 chainLit0 = chainLit0 :: List.replicate 9 chainLit0 from rfl]
  rw [verifyFold_step 23 chainLit23 chainLit0 _ (by rw [tree_height_eq]; try omega), chainStep23]
  exact foldChain24

theorem foldChain22 : verifyFold 22 chainLit22 0 (List.replicate 11 chainLit0) = chainLit32 := by
  rw [show List.replicate 11 chainLit0 = chainLit0 :: List.replicate 10 chainLit0 from rfl]
  rw [verifyFold_step 22 chainLit22 chainLit0 _ (by rw [tree_height_eq]; try omega), chainStep22]
  exact foldChain23

theorem foldChain21 : verifyFold 21 chainLit21 0 (List.replicate 12 chainLit0) = chainLit32 := by
  rw [show List.replicate 12 chainLit0 = chainLit0 :: List.replicate 11 chainLit0 from rfl]
  rw [verifyFold_step 21 chainLit21 chainLit0 _ (by rw [tree_height_eq]; try omega), chainStep21]
  exact foldChain22

theorem foldChain20 : verifyFold 20 chainLit20 0 (List.replicate 13 chainLit0) = chainLit32 := by
  rw [show List.replicate 13 chainLit0 = chainLit0 :: List.replicate 12 chainLit0 from rfl]
  rw [verifyFold_step 20 chainLit20 chainLit0 _ (by rw [tree_height_eq]; try omega), chainStep20]
  exact foldChain21

theorem foldChain19 : verifyFold 19 chainLit19 0 (List.replicate 14 chainLit0) = chainLit32 := by
  rw [show List.replicate 14 chainLit0 = chainLit0 :: List.replicate 13 chainLit0 from rfl]
  rw [verifyFold_step 19 chainLit19 chainLit0 _ (by rw [tree_height_eq]; try omega), chainStep19]
  exact foldChain20

theorem foldChain18 : verifyFold 18 chainLit18 0 (List.replicate 15 chainLit0) = chainLit32 := by
  rw [show List.replicate 15 chainLit0 = chainLit0 :: List.replicate 14 chainLit0 from rfl]
  rw [verifyFold_step 18 chainLit18 chainLit0 _ (by rw [tree_height_eq]; try omega), chainStep18]
  exact foldChain19

theorem foldChain17 : verifyFold 17 chainLit17 0 (List.replicate 16 chainLit0) = chainLit32 := by
  rw [show List.replicate 16 chainLit0 = chainLit0 :: List.replicate 15 chainLit0 from rfl]
  rw [verifyFold_step 17 chainLit17 chainLit0 _ (by rw [tree_height_eq]; try omega), chainStep17]
  exact foldChain18

theorem foldChain16 : verifyFold 16 chainLit16 0 (List.replicate 17 chainLit0) = chainLit32 := by
  rw [show List.replicate 17 chainLit0 = chainLit0 :: List.replicate 16 chainLit0 from rfl]
  rw [verifyFold_step 16 chainLit16 chainLit0 _ (by rw [tree_height_eq]; try omega), chainStep16]
  exact foldChain17

theorem foldChain15 : verifyFold 15 chainLit15 0 (List.replicate 18 chainLit0) = chainLit32 := by
  rw [show List.replicate 18 chainLit0 = chainLit0 :: List.replicate 17 chainLit0 from rfl]
  rw [verifyFold_step 15 chainLit15 chainLit0 _ (by rw [tree_height_eq]; try omega), chainStep15]
  exact foldChain16

theorem foldChain14 : verifyFold 14 chainLit14 0 (List.replicate 19 chainLit0) = chainLit32 := by
  rw [show List.replicate 19 chainLit0 = chainLit0 :: List.replicate 18 chainLit0 from rfl]
  rw [verifyFold_step 14 chainLit14 chainLit0 _ (by rw [tree_height_eq]; try omega), chainStep14]
  exact foldChain15

theorem foldChain13 : verifyFold 13 chainLit13 0 (List.replicate 20 chainLit0) = chainLit32 := by
  rw [show List.replicate 20 chainLit0 = chainLit0 :: List.replicate 19 chainLit0 from rfl]
  rw [verifyFold_step 13 chainLit13 chainLit0 _ (by rw [tree_height_eq]; try omega), chainStep13]
  exact foldChain14

theorem foldChain12 : verifyFold 12 chainLit12 0 (List.replicate 21 chainLit0) = chainLit32 := by
  rw [show List.replicate 21 chainLit0 = chainLit0 :: List.replicate 20 chainLit0 from rfl]
  rw [verifyFold_step 12 chainLit12 chainLit0 _ (by rw [tree_height_eq]; try omega), chainStep12]
  exact foldChain13

theorem foldChain11 : verifyFold 11 chainLit11 0 (List.replicate 22 chainLit0) = chainLit32 := by
  rw [show List.replicate 22 chainLit0 = chainLit0 :: List.replicate 21 chainLit0 from rfl]
  rw [verifyFold_step 11 chainLit11 chainLit0 _ (by rw [tree_height_eq]; try omega), chainStep11]
  exact foldChain12

theorem foldChain10 : verifyFold 10 chainLit10 0 (List.replicate 23 chainLit0) = chainLit32 := by
  rw [show List.replicate 23 chainLit0 = chainLit0 :: List.replicate 22 chainLit0 from rfl]
  rw [verifyFold_step 10 chainLit10 chainLit0 _ (by rw [tree_height_eq]; try omega), chainStep10]
  exact foldChain11

theorem foldChain9 : verifyFold 9 chainLit9 0 (List.replicate 24 chainLit0) = chainLit32 := by
  rw [show List.replicate 24 chainLit0 = chainLit0 :: List.replicate 23 chainLit0 from rfl]
  rw [verifyFold_step 9 chainLit9 chainLit0 _ (by rw [tree_height_eq]; try omega), chainStep9]
  exact foldChain10

theorem foldChain8 : verifyFold 8 chainLit8 0 (List.replicate 25 chainLit0) = chainLit32 := by
  rw [show List.replicate 25 chainLit0 = chainLit0 :: List.replicate 24 chainLit0 from rfl]
  rw [verifyFold_step 8 chainLit8 chainLit0 _ (by rw [tree_height_eq]; try omega), chainStep8]
  exact foldChain9

theorem foldChain7 : verifyFold 7 chainLit7 0 (List.replicate 26 chainLit0) = chainLit32 := by
  rw [show List.replicate 26 chainLit0 = chainLit0 :: List.replicate 25 chainLit0 from rfl]
  rw [verifyFold_step 7 chainLit7 chainLit0 _ (by rw [tree_height_eq]; try omega), chainStep7]
  exact foldChain8

theorem foldChain6 : verifyFold 6 chainLit6 0 (List.replicate 27 chainLit0) = chainLit32 := by
  rw [show List.replicate 27 chainLit0 = chainLit0 :: List.replicate 26 chainLit0 from rfl]
  rw [verifyFold_step 6 chainLit6 chainLit0 _ (by rw [tree_height_eq]; try omega), chainStep6]
  exact foldChain7

theorem foldChain5 : verifyFold 5 chainLit5 0 (List.replicate 28 chainLit0) = chainLit32 := by
  rw [show List.replicate 28 chainLit0 = chainLit0 :: List.replicate 27 chainLit0 from rfl]
  rw [verifyFold_step 5 chainLit5 chainLit0 _ (by rw [tree_height_eq]; try omega), chainStep5]
  exact foldChain6

theorem foldChain4 : verifyFold 4 chainLit4 0 (List.replicate 29 chainLit0) = chainLit32 := by
  rw [show List.replicate 29 chainLit0 = chainLit0 :: List.replicate 28 chainLit0 from rfl]
  rw [verifyFold_step 4 chainLit4 chainLit0 _ (by rw [tree_height_eq]; try omega), chainStep4]
  exact foldChain5

theorem foldChain3 : verifyFold 3 chainLit3 0 (List.replicate 30 chainLit0) = chainLit32 := by
  rw [show List.replicate 30 chainLit0 = chainLit0 :: List.replicate 29 chainLit0 from rfl]
  rw [verifyFold_step 3 chainLit3 chainLit0 _ (by rw [tree_height_eq]; try omega), chainStep3]
  exact foldChain4

theorem foldChain2 : verifyFold 2 chainLit2 0 (List.replicate 31 chainLit0) = chainLit32 := by
  rw [show List.replicate 31 chainLit0 = chainLit0 :: List.replicate 30 chainLit0 from rfl]
  rw [verifyFold_step 2 chainLit2 chainLit0 _ (by rw [tree_height_eq]; try omega), chainStep2]
  exact foldChain3

theorem foldChain1 : verifyFold 1 chainLit1 0 (List.replicate 32 chainLit0) = chainLit32 := by
  rw [show List.replicate 32 chainLit0 = chainLit0 :: List.replicate 31 chainLit0 from rfl]
  rw [verifyFold_step 1 chainLit1 chainLit0 _ (by rw [tree_height_eq]; try omega), chainStep1]
  exact foldChain2

theorem foldChain0 : verifyFold 0 chainLit0 0 (List.replicate 33 chainLit0) = chainLit32 := by
  rw [show List.replicate 33 chainLit0 = chainLit0 :: List.replicate 32 chainLit0 from rfl]
  rw [verifyFold_step 0 chainLit0 chainLit0 _ (by rw [tree_height_eq]; try omega), chainStep0]
  exact foldChain1

theorem allChain33 : verifyAllSiblings chainLit33 0 (List.replicate 0 chainLit0) = chainLit33 := rfl

theorem allChain32 : verifyAllSiblings chainLit32 0 (List.replicate 1 chainLit0) = chainLit33 := by
  rw [show List.replicate 1 chainLit0 = chainLit0 :: List.replicate 0 chainLit0 from rfl]
  rw [verifyAllSiblings_cons_even, chainStep32]
  exact allChain33

theorem allChain31 : verifyAllSiblings chainLit31 0 (List.replicate 2 chainLit0) = chainLit33 := by
  rw [show List.replicate 2 chainLit0 = chainLit0 :: List.replicate 1 chainLit0 from rfl]
  rw [verifyAllSiblings_cons_even, chainStep31]
  exact allChain32

theorem allChain30 : verifyAllSiblings chainLit30 0 (List.replicate 3 chainLit0) = chainLit33 := by
  rw [show List.replicate 3 chainLit0 = chainLit0 :: List.replicate 2 chainLit0 from rfl]
  rw [verifyAllSiblings_cons_even, chainStep30]
  exact allChain31

theorem allChain29 : verifyAllSiblings chainLit29 0 (List.replicate 4 chainLit0) = chainLit33 := by
  rw [show List.replicate 4 chainLit0 = chainLit0 :: List.replicate 3 chainLit0 from rfl]
  rw [verifyAllSiblings_cons_even, chainStep29]
  exact allChain30

theorem allChain28 : verifyAllSiblings chainLit28 0 (List.replicate 5 chainLit0) = chainLit33 := by
  rw [show List.replicate 5 chainLit0 = chainLit0 :: List.replicate 4 chainLit0 from rfl]
  rw [verifyAllSiblings_cons_even, chainStep28]
  exact allChain29

theorem allChain27 : verifyAllSiblings chainLit27 0 (List.replicate 6 chainLit0) = chainLit33 := by
  rw [show List.replicate 6 chainLit0 = chainLit0 :: List.replicate 5 chainLit0 from rfl]
  rw [verifyAllSiblings_cons_even, chainStep27]
  exact allChain28

theorem allChain26 : verifyAllSiblings chainLit26 0 (List.replicate 7 chainLit0) = chainLit33 := by
  rw [show List.replicate 7 chainLit0 = chainLit0 :: List.replicate 6 chainLit0 from rfl]
  rw [verifyAllSiblings_cons_even, chainStep26]
  exact allChain27

theorem allChain25 : verifyAllSiblings chainLit25 0 (List.replicate 8 chainLit0) = chainLit33 := by
  rw [show List.replicate 8 chainLit0 = chainLit0 :: List.replicate 7 chainLit0 from rfl]
  rw [verifyAllSiblings_cons_even, chainStep25]
  exact allChain26

theorem allChain24 : verifyAllSiblings chainLit24 0 (List.replicate 9 chainLit0) = chainLit33 := by
  rw [show List.replicate 9 chainLit0 = chainLit0 :: List.replicate 8 chainLit0 from rfl]
  rw [verifyAllSiblings_cons_even, chainStep24]
  exact allChain25

theorem allChain23 : verifyAllSiblings chainLit23 0 (List.replicate 10 chainLit0) = chainLit33 := by
  rw [show List.replicate 10 chainLit0 = chainLit0 :: List.replicate 9 chainLit0 from rfl]
  rw [verifyAllSiblings_cons_even, chainStep23]
  exact allChain24

theorem allChain22 : verifyAllSiblings chainLit22 0 (List.replicate 11 chainLit0) = chainLit33 := by
  rw [show List.replicate 11 chainLit0 = chainLit0 :: List.replicate 10 chainLit0 from rfl]
  rw [verifyAllSiblings_cons_even, chainStep22]
  exact allChain23

theorem allChain21 : verifyAllSiblings chainLit21 0 (List.replicate 12 chainLit0) = chainLit33 := by
  rw [show List.replicate 12 chainLit0 = chainLit0 :: List.replicate 11 chainLit0 from rfl]
  rw [verifyAllSiblings_cons_even, chainStep21]
  exact allChain22

theorem allChain20 : verifyAllSiblings chainLit20 0 (List.replicate 13 chainLit0) = chainLit33 := by
  rw [show List.replicate 13 chainLit0 = chainLit0 :: List.replicate 12 chainLit0 from rfl]
  rw [verifyAllSiblings_cons_even, chainStep20]
  exact allChain21

theorem allChain19 : verifyAllSiblings chainLit19 0 (List.replicate 14 chainLit0) = chainLit33 := by
  rw [show List.replicate 14 chainLit0 = chainLit0 :: List.replicate 13 chainLit0 from rfl]
  rw [verifyAllSiblings_cons_even, chainStep19]
  exact allChain20

theorem allChain18 : verifyAllSiblings chainLit18 0 (List.replicate 15 chainLit0) = chainLit33 := by
  rw [show List.replicate 15 chainLit0 = chainLit0 :: List.replicate 14 chainLit0 from rfl]
  rw [verifyAllSiblings_cons_even, chainStep18]
  exact allChain19

theorem allChain17 : verifyAllSiblings chainLit17 0 (List.replicate 16 chainLit0) = chainLit33 := by
  rw [show List.replicate 16 chainLit0 = chainLit0 :: List.replicate 15 chainLit0 from rfl]
  rw [verifyAllSiblings_cons_even, chainStep17]
  exact allChain18

theorem allChain16 : verifyAllSiblings chainLit16 0 (List.replicate 17 chainLit0) = chainLit33 := by
  rw [show List.replicate 17 chainLit0 = chainLit0 :: List.replicate 16 chainLit0 from rfl]
  rw [verifyAllSiblings_cons_even, chainStep16]
  exact allChain17

theorem allChain15 : verifyAllSiblings chainLit15 0 (List.replicate 18 chainLit0) = chainLit33 := by
  rw [show List.replicate 18 chainLit0 = chainLit0 :: List.replicate 17 chainLit0 from rfl]
  rw [verifyAllSiblings_cons_even, chainStep15]
  exact allChain16

theorem allChain14 : verifyAllSiblings chainLit14 0 (List.replicate 19 chainLit0) = chainLit33 := by
  rw [show List.replicate 19 chainLit0 = chainLit0 :: List.replicate 18 chainLit0 from rfl]
  rw [verifyAllSiblings_cons_even, chainStep14]
  exact allChain15

theorem allChain13 : verifyAllSiblings chainLit13 0 (List.replicate 20 chainLit0) = chainLit33 := by
  rw [show List.replicate 20 chainLit0 = chainLit0 :: List.replicate 19 chainLit0 from rfl]
  rw [verifyAllSiblings_cons_even, chainStep13]
  exact allChain14

theorem allChain12 : verifyAllSiblings chainLit12 0 (List.replicate 21 chainLit0) = chainLit33 := by
  rw [show List.replicate 21 chainLit0 = chainLit0 :: List.replicate 20 chainLit0 from rfl]
  rw [verifyAllSiblings_cons_even, chainStep12]
  exact allChain13

theorem allChain11 : verifyAllSiblings chainLit11 0 (List.replicate 22 chainLit0) = chainLit33 := by
  rw [show List.replicate 22 chainLit0 = chainLit0 :: List.replicate 21 chainLit0 from rfl]
  rw [verifyAllSiblings_cons_even, chainStep11]
  exact allChain12

theorem allChain10 : verifyAllSiblings chainLit10 0 (List.replicate 23 chainLit0) = chainLit33 := by
  rw [show List.replicate 23 chainLit0 = chainLit0 :: List.replicate 22 chainLit0 from rfl]
  rw [verifyAllSiblings_cons_even, chainStep10]
  exact allChain11

theorem allChain9 : verifyAllSiblings chainLit9 0 (List.replicate 24 chainLit0) = chainLit33 := by
  rw [show List.replicate 24 chainLit0 = chainLit0 :: List.replicate 23 chainLit0 from rfl]
  rw [verifyAllSiblings_cons_even, chainStep9]
  exact allChain10

theorem allChain8 : verifyAllSiblings chainLit8 0 (List.replicate 25 chainLit0) = chainLit33 := by
  rw [show List.replicate 25 chainLit0 = chainLit0 :: List.replicate 24 chainLit0 from rfl]
  rw [verifyAllSiblings_cons_even, chainStep8]
  exact allChain9

theorem allChain7 : verifyAllSiblings chainLit7 0 (List.replicate 26 chainLit0) = chainLit33 := by
  rw [show List.replicate 26 chainLit0 = chainLit0 :: List.replicate 25 chainLit0 from rfl]
  rw [verifyAllSiblings_cons_even, chainStep7]
  exact allChain8

theorem allChain6 : verifyAllSiblings chainLit6 0 (List.replicate 27 chainLit0) = chainLit33 := by
  rw [show List.replicate 27 chainLit0 = chainLit0 :: List.replicate 26 chainLit0 from rfl]
  rw [verifyAllSiblings_cons_even, chainStep6]
  exact allChain7

theorem allChain5 : verifyAllSiblings chainLit5 0 (List.replicate 28 chainLit0) = chainLit33 := by
  rw [show List.replicate 28 chainLit0 = chainLit0 :: List.replicate 27 chainLit0 from rfl]
  rw [verifyAllSiblings_cons_even, chainStep5]
  exact allChain6

theorem allChain4 : verifyAllSiblings chainLit4 0 (List.replicate 29 chainLit0) = chainLit33 := by
  rw [show List.replicate 29 chainLit0 = chainLit0 :: List.replicate 28 chainLit0 from rfl]
  rw [verifyAllSiblings_cons_even, chainStep4]
  exact allChain5

theorem allChain3 : verifyAllSiblings chainLit3 0 (List.replicate 30 chainLit0) = chainLit33 := by
  rw [show List.replicate 30 chainLit0 = chainLit0 :: List.replicate 29 chainLit0 from rfl]
  rw [verifyAllSiblings_cons_even, chainStep3]
  exact allChain4

theorem allChain2 : verifyAllSiblings chainLit2 0 (List.replicate 31 chainLit0) = chainLit33 := by
  rw [show List.replicate 31 chainLit0 = chainLit0 :: List.replicate 30 chainLit0 from rfl]
  rw [verifyAllSiblings_cons_even, chainStep2]
  exact allChain3

theorem allChain1 : verifyAllSiblings chainLit1 0 (List.replicate 32 chainLit0) = chainLit33 := by
  rw [show List.replicate 32 chainLit0 = chainLit0 :: List.replicate 31 chainLit0 from rfl]
  rw [verifyAllSiblings_cons_even, chainStep1]
  exact allChain2

theorem allChain0 : verifyAllSiblings chainLit0 0 (List.replicate 33 chainLit0) = chainLit33 := by
  rw [show List.replicate 33 chainLit0 = chainLit0 :: List.replicate 32 chainLit0 from rfl]
  rw [verifyAllSiblings_cons_even, chainStep0]
  exact allChain1

/-- C3 as stated is false for proofs with more than 32 siblings: on a concrete
33-sibling proof (all-zero leaf, index 0, all-zero siblings), verify_proof
accepts the root reached after 32 combining steps, while the claimed
one-combining-step-per-entry semantics performs a 33rd step and reaches a
different value — the entry beyond the 32nd is ignored, not processed. -/
theorem verify_proof_per_entry_cex :
    MerkleTree.verify_proof zeroLeaf longProof chainLit32 = true ∧
    verifyAllSiblings zeroLeaf longProof.leaf_index longProof.siblings ≠ chainLit32 := by
  have hsib : longProof.siblings = List.replicate 33 chainLit0 := by
    rw [show longProof.siblings = List.replicate 33 zeroLeaf from rfl, zeroLeaf_eq_chainLit0]
  have hidx : longProof.leaf_index = 0 := rfl
  constructor
  · have hfold : verifyFold 0 zeroLeaf longProof.leaf_index longProof.siblings = chainLit32 := by
      rw [hidx, hsib, zeroLeaf_eq_chainLit0]
      exact foldChain0
    exact decide_eq_true hfold
  · rw [hidx, hsib, zeroLeaf_eq_chainLit0, allChain0]
    intro h
    have := congrArg (fun l => List.getD l 0 0) h
    revert this
    decide

/-- C3 (amended): verify_proof does not enforce the exactly-32-sibling shape —
a proof with an empty siblings list verifies exactly when the leaf equals the
expected root, and any proof with at most 32 siblings is processed with one
combining step per provided entry (the claimed per-entry semantics); entries
beyond the 32nd, however, are ignored by the early exit. -/
theorem verify_proof_shape_flexible :
    (∀ (i : Nat) (leaf er : Bytes),
      MerkleTree.verify_proof leaf ⟨i, []⟩ er = true ↔ leaf = er) ∧
    (∀ (leaf er : Bytes) (p : MerkleProof), p.siblings.length ≤ 32 →
      MerkleTree.verify_proof leaf p er =
        decide (verifyAllSiblings leaf p.leaf_index p.siblings = er)) := by
  constructor
  · intro i leaf er
    rw [show MerkleTree.verify_proof leaf ⟨i, []⟩ er = decide (leaf = er) from rfl]
    exact decide_eq_true_iff
  · intro leaf er p hlen
    rw [MerkleTree.verify_proof, verifyFold_no_exit p.siblings 0 leaf p.leaf_index (by omega)]

/-- Witness for C3: the empty-siblings case at a concrete leaf and root. -/
theorem verify_proof_shape_flexible_witness :
    MerkleTree.verify_proof zeroLeaf ⟨0, []⟩ zeroLeaf = true :=
  (verify_proof_shape_flexible.1 0 zeroLeaf zeroLeaf).mpr rfl

/-! ## Claim theorems for the commitment scheme -/

/-- C5: the commitment of (amount 0, zero owner, zero blinding) and of
(amount 1, zero owner, zero blinding) equal the fixed cross-language test
digests, and the two digests differ. Determinism is definitional: commit is a
pure function of the note. -/
theorem commit_cross_language_vectors :
    commit exNote = exNoteCommitment ∧
    commit { amount := 1, owner_pubkey := zeroLeaf, blinding := zeroLeaf } =
      [72, 208, 129, 104, 253, 149, 246, 162, 3, 114, 53, 47, 36, 255, 242, 114,
       213, 252, 25, 107, 131, 211, 1, 38, 30, 50, 86, 196, 38, 202, 37, 13] ∧
    exNoteCommitment ≠
      [72, 208, 129, 104, 253, 149, 246, 162, 3, 114, 53, 47, 36, 255, 242, 114,
       213, 252, 25, 107, 131, 211, 1, 38, 30, 50, 86, 196, 38, 202, 37, 13] :=
  ⟨by decide, by decide, by decide⟩

/-! ## Witness-validation lemmas -/

theorem checkedSum_eq (xs : List Nat) :
    checkedSum xs = if xs.sum < 2 ^ 64 then some xs.sum else none := by
  induction xs with
  | nil => simp [checkedSum]
  | cons x xs ih =>
    rw [checkedSum, ih]
    by_cases h : xs.sum < 2 ^ 64
    · rw [if_pos h]
      show checkedAdd x xs.sum = if (x :: xs).sum < 2 ^ 64 then some ((x :: xs).sum) else none
      rw [List.sum_cons]
      unfold checkedAdd
      rfl
    · rw [if_neg h]
      show (none : Option Nat) = if (x :: xs).sum < 2 ^ 64 then some ((x :: xs).sum) else none
      rw [if_neg (by rw [List.sum_cons]; omega)]

/-- C6: the value-conservation check passes exactly when both 64-bit amount
sums avoid overflow and the output sum does not exceed the input sum; any
overflow rejects rather than wraps. -/
theorem validate_value_conservation_iff (w : Witness) :
    validate_value_conservation w = Except.ok () ↔
      ((w.input_notes.map Note.amount).sum < 2 ^ 64 ∧
       (w.output_notes.map Note.amount).sum < 2 ^ 64 ∧
       (w.output_notes.map Note.amount).sum ≤ (w.input_notes.map Note.amount).sum) := by
  unfold validate_value_conservation
  rw [checkedSum_eq, checkedSum_eq]
  by_cases h1 : (w.input_notes.map Note.amount).sum < 2 ^ 64
  · rw [if_pos h1]
    by_cases h2 : (w.output_notes.map Note.amount).sum < 2 ^ 64
    · rw [if_pos h2]
      show (if (w.output_notes.map Note.amount).sum ≤ (w.input_notes.map Note.amount).sum
        then Except.ok () else Except.error ProgError.conservation) = Except.ok () ↔ _
      by_cases h3 :
          (w.output_notes.map Note.amount).sum ≤ (w.input_notes.map Note.amount).sum
      · rw [if_pos h3]
        exact ⟨fun _ => ⟨h1, h2, h3⟩, fun _ => rfl⟩
      · rw [if_neg h3]
        exact ⟨fun hc => Except.noConfusion hc, fun hc => absurd hc.2.2 h3⟩
    · rw [if_neg h2]
      show Except.error ProgError.conservation = Except.ok () ↔ _
      exact ⟨fun hc => Except.noConfusion hc, fun hc => absurd hc.2.1 h2⟩
  · rw [if_neg h1]
    show Except.error ProgError.conservation = Except.ok () ↔ _
    exact ⟨fun hc => Except.noConfusion hc, fun hc => absurd hc.1 h1⟩

/-- Witness for C6: the example witness (no inputs, one zero-amount output)
passes the conservation check. -/
theorem validate_value_conservation_iff_witness :
    validate_value_conservation exWitnessPre = Except.ok () :=
  (validate_value_conservation_iff exWitnessPre).mpr (by decide)

theorem checkCommitments_ok :
    ∀ (ns : List Note) (cs : List Bytes), checkCommitments ns cs = Except.ok () →
      ∀ (k : Nat) (note : Note), ns.get? k = some note → cs.get? k = some (commit note)
  | [], _, _, k, note, hk => by simp at hk
  | _ :: _, [], h, k, note, hk => by
    rw [checkCommitments] at h
    exact Except.noConfusion h
  | n :: ns, c :: cs, h, 0, note, hk => by
    rw [checkCommitments] at h
    by_cases hc : commit n = c
    · rw [if_pos hc] at h
      simp only [List.get?] at hk
      cases hk
      simp [List.get?, hc.symm]
    · rw [if_neg hc] at h
      exact Except.noConfusion h
  | n :: ns, c :: cs, h, k + 1, note, hk => by
    rw [checkCommitments] at h
    by_cases hc : commit n = c
    · rw [if_pos hc] at h
      exact checkCommitments_ok ns cs h k note hk
    · rw [if_neg hc] at h
      exact Except.noConfusion h

theorem checkNullifiers_ok :
    ∀ (ns : List Note) (ss ps : List Bytes), checkNullifiers ns ss ps = Except.ok () →
      ∀ k : Nat, k < ns.length →
        ∃ s, ss.get? k = some s ∧ ps.get? k = some (compute_nullifier s)
  | [], _, _, _, k, hk => by simp at hk
  | n :: ns, [], ps, h, k, hk => by
    exact Except.noConfusion h
  | n :: ns, s :: ss, [], h, k, hk => by
    exact Except.noConfusion h
  | n :: ns, s :: ss, p :: ps, h, 0, hk => by
    rw [checkNullifiers] at h
    by_cases hc : compute_nullifier s = p
    · exact ⟨s, rfl, by simp [List.get?, hc.symm]⟩
    · rw [if_neg hc] at h
      exact Except.noConfusion h
  | n :: ns, s :: ss, p :: ps, h, k + 1, hk => by
    rw [checkNullifiers] at h
    by_cases hc : compute_nullifier s = p
    · rw [if_pos hc] at h
      exact checkNullifiers_ok ns ss ps h k (by simp at hk; omega)
    · rw [if_neg hc] at h
      exact Except.noConfusion h

theorem simulate_ok_spec (ledger : Ledger) (nsigs tsigs : List Bytes)
    (inNotes outNotes : List Note) (pn pin pout : List Bytes) (l2 : Ledger)
    (po : PublicOutputs)
    (h : simulate_tx_with_precomputed ledger nsigs tsigs inNotes outNotes pn pin pout =
      Except.ok (l2, po)) :
    po.nullifiers = pn ∧ po.output_commitments = pout ∧
    checkNullifiers inNotes nsigs pn = Except.ok () ∧
    checkCommitments outNotes pout = Except.ok () := by
  unfold simulate_tx_with_precomputed at h
  cases h1 : checkNullifiers inNotes nsigs pn with
  | error e => rw [h1] at h; exact Except.noConfusion h
  | ok u1 =>
    cases u1
    rw [h1] at h
    cases h2 : checkCommitments outNotes pout with
    | error e => rw [h2] at h; exact Except.noConfusion h
    | ok u2 =>
      cases u2
      rw [h2] at h
      cases h3 : checkDoubleSpend ledger.nullifiers pn with
      | error e => rw [h3] at h; exact Except.noConfusion h
      | ok u3 =>
        rw [h3] at h
        injection h with hpair
        injection hpair with hl hpo
        rw [← hpo]
        exact ⟨rfl, rfl, rfl, rfl⟩

/-- C8: whenever the proving program completes without a panic, the committed
outputs carry the caller-asserted old root unchanged, exactly one nullifier
per input note in input order (each rechecked against the corresponding
authorization signature), and exactly one commitment per output note in
output order. -/
theorem program_outputs_spec (pi : PublicInputs) (w : Witness) (outs : PublicOutputs)
    (h : programMain pi w = Except.ok outs) :
    outs.old_root = pi.old_root ∧
    outs.nullifiers.length = w.input_notes.length ∧
    outs.output_commitments.length = w.output_notes.length ∧
    (∀ k, k < w.input_notes.length →
      ∃ s, w.nullifier_signatures.get? k = some s ∧
        outs.nullifiers.get? k = some (compute_nullifier s)) ∧
    (∀ k note, w.output_notes.get? k = some note →
      outs.output_commitments.get? k = some (commit note)) := by
  unfold programMain at h
  repeat' split at h
  all_goals try exact Except.noConfusion h
  rename_i hmk xpre pre hpre xsim l2 outs0 hsim hcnt1 hcnt2
  injection h with houts
  rw [← houts]
  obtain ⟨hn, hc, hcn, hcc⟩ := simulate_ok_spec _ _ _ _ _ _ _ _ _ _ hsim
  refine ⟨rfl, by simp only []; omega, by simp only []; omega, ?_, ?_⟩
  · intro k hk
    obtain ⟨s, hs1, hs2⟩ :=
      checkNullifiers_ok w.input_notes w.nullifier_signatures pre.nullifiers hcn k hk
    refine ⟨s, hs1, ?_⟩
    show outs0.nullifiers.get? k = some (compute_nullifier s)
    rw [hn]
    exact hs2
  · intro k note hk
    show outs0.output_commitments.get? k = some (commit note)
    rw [hc]
    exact checkCommitments_ok w.output_notes pre.output_commitments hcc k note hk

/-- C7: whenever the witness lacks precomputed values, the proving program
never runs to completion — it rejects on some check before committing any
outputs — and when every check preceding the execution path succeeds, the
rejection is precisely the standard-path-disabled panic; only the optimized
path can produce outputs. -/
theorem standard_path_rejected (pi : PublicInputs) (w : Witness)
    (h : has_precomputed_values w = false) :
    (∀ outs, programMain pi w ≠ Except.ok outs) ∧
    (validate_structure w = Except.ok () →
     validate_value_conservation w = Except.ok () →
     w.input_proofs.length = w.input_notes.length →
     merkleChecksPass pi w = true →
     programMain pi w = Except.error ProgError.standardPathDisabled) := by
  have hnone : w.precomputed = none := by
    cases hp : w.precomputed with
    | none => rfl
    | some v =>
      rw [has_precomputed_values, hp] at h
      exact Bool.noConfusion h
  constructor
  · intro outs hok
    unfold programMain at hok
    rw [hnone] at hok
    repeat' split at hok
    all_goals first
    | exact Except.noConfusion hok
    | contradiction
  · intro h1 h2 h3 h4
    have hne : ¬(w.input_notes.isEmpty = true ∧ w.output_notes.isEmpty = true) := by
      intro hemp
      obtain ⟨he1, he2⟩ := hemp
      rw [List.isEmpty_iff] at he1 he2
      unfold validate_structure at h1
      rw [if_neg (fun hcond => hcond.2.2.2.2.elim (fun hh => hh he1) (fun hh => hh he2))] at h1
      exact Except.noConfusion h1
    unfold programMain
    rw [h1, h2, if_neg hne, hnone,
      if_neg (show ¬(w.input_proofs.length ≠ w.input_notes.length) by omega),
      if_neg (show ¬(merkleChecksPass pi w = false) by rw [h4]; simp)]

/-- Witness for C7: the example witness without precomputed values is rejected
with the standard-path-disabled panic. -/
theorem standard_path_rejected_witness :
    programMain exPublicInputs exWitnessNoPre = Except.error ProgError.standardPathDisabled :=
  (standard_path_rejected exPublicInputs exWitnessNoPre rfl).2 rfl rfl rfl rfl

/-- Witness for C8: the example precomputed witness runs to completion and its
outputs pass the old root through unchanged. -/
theorem program_outputs_spec_witness : exOutputs.old_root = exPublicInputs.old_root :=
  (program_outputs_spec exPublicInputs exWitnessPre exOutputs rfl).1
